import Mathlib

/-!
# Verification of the gltf-plugins animation / parallel-compute engine

Shallow embedding of the parts of the repository relevant to the frozen
claims:

* `TransformWorkerPool.ts` — the worker pool (constructor, queueing, flush,
  response handling) and the inline worker code (`WORKER_CODE`): transform
  batches, skin batches, lighting batches, and the worker-side
  `calculateLighting` routine.
* `AnimationController.ts` (src/unnamed/part_007) — playback time advance
  (`update`, `setTime`) and the mesh/joint query accessors.
* `Lighting.ts` (src/unnamed/part_009) — the global light registry
  (create/set operations) and the main-thread `calculateMeshLighting`.

Conventions of the embedding:

* JavaScript numbers are modelled as exact rationals (`ℚ`) where the code
  only uses field operations, and as reals (`ℝ`) where `Math.sqrt`,
  `Math.cos` or `Math.pow` are involved.
* `Float32Array` buffers become `List ℚ` / `List ℝ`; writing consecutive
  ranges of a pre-allocated packed buffer is modelled as list concatenation.
* A JavaScript `throw` is modelled as `Except.error`; returning `null` is
  `Option.none`.
* `Map` objects keyed by mesh id become association lists `List (ℕ × α)`
  looked up with `List.lookup`.
-/

namespace GltfSpec

/-! ## TransformWorkerPool constructor (TransformWorkerPool.ts lines 703-708)

```
const defaultCount = Math.max(1, (navigator.hardwareConcurrency || 4) - 1);
this._workerCount = Math.min(workerCount ?? defaultCount, 8);
```

`navigator.hardwareConcurrency || 4` yields 4 when the property is absent
(`none`) or zero (JavaScript falsiness).  Counts are integers (`ℤ`) so that
a (hypothetical) negative explicit argument is represented faithfully. -/

/-- `navigator.hardwareConcurrency || 4`: absent or zero falls back to 4. -/
def hardwareConcurrencyOr4 (hw : Option ℤ) : ℤ :=
  match hw with
  | none => 4
  | some n => if n = 0 then 4 else n

/-- `Math.max(1, (navigator.hardwareConcurrency || 4) - 1)`. -/
def defaultWorkerCount (hw : Option ℤ) : ℤ :=
  max 1 (hardwareConcurrencyOr4 hw - 1)

/-- `this._workerCount = Math.min(workerCount ?? defaultCount, 8)`. -/
def poolWorkerCount (workerCount : Option ℤ) (hw : Option ℤ) : ℤ :=
  min (workerCount.getD (defaultWorkerCount hw)) 8

end GltfSpec

/-- **C10.** When the pool is constructed with an explicit `workerCount`
only the upper clamp `min(workerCount, 8)` applies; the minimum-of-1 clamp
is part of the hardware-concurrency default only, so an explicit count of 0
yields a pool with zero workers, while the defaulted count is always ≥ 1. -/
theorem c10_explicit_workerCount_not_clamped_to_one :
    (∀ hw : Option ℤ, GltfSpec.poolWorkerCount (some 0) hw = 0) ∧
    (∀ (w : ℤ) (hw : Option ℤ), GltfSpec.poolWorkerCount (some w) hw = min w 8) ∧
    (∀ hw : Option ℤ, 1 ≤ GltfSpec.poolWorkerCount none hw) := by
  refine ⟨fun hw => rfl, fun w hw => rfl, fun hw => ?_⟩
  simp only [GltfSpec.poolWorkerCount, Option.getD, GltfSpec.defaultWorkerCount]
  refine le_min (le_max_left _ _) (by norm_num)

namespace GltfSpec

/-! ## AnimationController playback time (part_007, `update` / `setTime`)

The pose pipeline (`_resetToBindPose`, `_evaluateAnimation`,
`_computeJointWorldMatrices`, `_computeBoneMatrices`, `_applyAllSkinning`)
is a deterministic function of the controller's `_time` and of immutable
clip data; `update` and `setTime` both run exactly that pipeline after
fixing `_time`.  The state record therefore carries `time` together with
the playback flags, and pose equality is state equality composed with any
deterministic pose function. -/

/-- `while (time >= duration) time -= duration` (part_007 lines 317-319).
The loop is only reached with `0 < duration` (the source returns early on
`duration <= 0`); the guard carries that fact so the recursion terminates. -/
def wrapDown (D t : ℚ) : ℚ :=
  if h : 0 < D ∧ D ≤ t then wrapDown D (t - D) else t
termination_by (⌊t / D⌋).toNat
decreasing_by
  obtain ⟨hD, h⟩ := h
  have h1 : (1 : ℚ) ≤ t / D := (one_le_div hD).mpr h
  have h2 : ⌊(t - D) / D⌋ = ⌊t / D⌋ - 1 := by
    rw [sub_div, div_self hD.ne']
    exact_mod_cast Int.floor_sub_int (t / D) 1
  have h3 : (1 : ℤ) ≤ ⌊t / D⌋ := by exact_mod_cast Int.le_floor.mpr (by exact_mod_cast h1)
  omega

/-- `while (time < 0) time += duration` (part_007 lines 320-322). -/
def wrapUp (D t : ℚ) : ℚ :=
  if h : 0 < D ∧ t < 0 then wrapUp D (t + D) else t
termination_by (-⌊t / D⌋).toNat
decreasing_by
  obtain ⟨hD, h⟩ := h
  have h1 : t / D < 0 := div_neg_of_neg_of_pos h hD
  have h2 : ⌊(t + D) / D⌋ = ⌊t / D⌋ + 1 := by
    rw [add_div, div_self hD.ne']
    exact_mod_cast Int.floor_add_int (t / D) 1
  have h3 : ⌊t / D⌋ < 0 := Int.floor_lt.mpr (by exact_mod_cast h1)
  omega

/-- The mathematical form of the wrap: `t - D⌊t/D⌋`, the representative of
`t` modulo `D` lying in `[0, D)`. -/
def qmod (t D : ℚ) : ℚ := t - D * ⌊t / D⌋

/-- Controller playback state: the fields read and written by `update`,
`setTime`, `stop`, `pause` (part_007).  `duration` is the current clip's
duration (the controller is assumed to hold a clip; `update` and `setTime`
return the state unchanged when `_currentAnimation` is null, which the
embedding represents by `hasAnimation`). -/
structure AnimState where
  hasAnimation : Bool
  duration : ℚ
  time : ℚ
  isPlaying : Bool
  isPaused : Bool
  playbackRate : ℚ
  loop : Bool
  /-- Number of times the `onComplete` callback has fired. -/
  completeCount : ℕ
  deriving Repr, DecidableEq

/-- `update(deltaTime)` (part_007 lines 304-351), restricted to its effect
on the playback state; the trailing pose pipeline depends only on the
resulting `time`. -/
def AnimState.update (s : AnimState) (deltaTime : ℚ) : AnimState :=
  if ¬s.isPlaying ∨ s.isPaused ∨ ¬s.hasAnimation then s
  else if s.duration ≤ 0 then s
  else
    let t := s.time + deltaTime * s.playbackRate
    if s.loop then
      { s with time := wrapUp s.duration (wrapDown s.duration t) }
    else if s.duration ≤ t then
      { s with time := s.duration, isPlaying := false,
               completeCount := s.completeCount + 1 }
    else if t < 0 then
      { s with time := 0, isPlaying := false,
               completeCount := s.completeCount + 1 }
    else
      { s with time := t }

/-- `setTime(time)` (part_007 lines 357-371): clamp into `[0, duration]`;
playing/paused are untouched. -/
def AnimState.setTime (s : AnimState) (time : ℚ) : AnimState :=
  if ¬s.hasAnimation then s
  else { s with time := max 0 (min time s.duration) }

/-- Folding a whole sequence of `update` calls. -/
def AnimState.updateSeq (s : AnimState) (deltas : List ℚ) : AnimState :=
  deltas.foldl AnimState.update s

end GltfSpec

namespace GltfSpec

lemma qmod_nonneg {D : ℚ} (hD : 0 < D) (t : ℚ) : 0 ≤ qmod t D := by
  have h := Int.fract_nonneg (t / D)
  have : qmod t D = D * Int.fract (t / D) := by
    unfold qmod Int.fract
    field_simp
  rw [this]
  positivity

lemma qmod_lt {D : ℚ} (hD : 0 < D) (t : ℚ) : qmod t D < D := by
  have h := Int.fract_lt_one (t / D)
  have heq : qmod t D = D * Int.fract (t / D) := by
    unfold qmod Int.fract
    field_simp
  rw [heq]
  calc D * Int.fract (t / D) < D * 1 := by
        exact mul_lt_mul_of_pos_left h hD
    _ = D := mul_one D

lemma qmod_eq_self {D t : ℚ} (h0 : 0 ≤ t) (hD : t < D) : qmod t D = t := by
  have hDpos : 0 < D := lt_of_le_of_lt h0 hD
  have : ⌊t / D⌋ = 0 := by
    rw [Int.floor_eq_zero_iff]
    constructor
    · exact div_nonneg h0 hDpos.le
    · simpa using (div_lt_one hDpos).mpr hD
  simp [qmod, this]

lemma qmod_sub_self {D : ℚ} (hD : 0 < D) (t : ℚ) : qmod (t - D) D = qmod t D := by
  unfold qmod
  have h2 : ⌊(t - D) / D⌋ = ⌊t / D⌋ - 1 := by
    rw [sub_div, div_self hD.ne']
    exact_mod_cast Int.floor_sub_int (t / D) 1
  rw [h2]
  push_cast
  ring

lemma qmod_add_self {D : ℚ} (hD : 0 < D) (t : ℚ) : qmod (t + D) D = qmod t D := by
  have := qmod_sub_self hD (t + D)
  simpa using this.symm

/-- Adding anything to an already-wrapped value and wrapping again is the
same as wrapping the sum once. -/
lemma qmod_qmod_add {D : ℚ} (hD : 0 < D) (a b : ℚ) :
    qmod (qmod a D + b) D = qmod (a + b) D := by
  unfold qmod
  have hk : ⌊(a - D * ⌊a / D⌋ + b) / D⌋ = ⌊(a + b) / D⌋ - ⌊a / D⌋ := by
    have : (a - D * ⌊a / D⌋ + b) / D = (a + b) / D - (⌊a / D⌋ : ℚ) := by
      field_simp
      ring
    rw [this]
    exact_mod_cast Int.floor_sub_int ((a + b) / D) ⌊a / D⌋
  rw [hk]
  push_cast
  ring

lemma wrapDown_of_neg {D t : ℚ} (h : ¬ D ≤ t) : wrapDown D t = t := by
  rw [wrapDown]
  simp [h]

lemma wrapUp_of_nonneg {D t : ℚ} (h : ¬ t < 0) : wrapUp D t = t := by
  rw [wrapUp]
  simp [h]

lemma wrapDown_spec {D : ℚ} (hD : 0 < D) : ∀ t : ℚ, 0 ≤ t → wrapDown D t = qmod t D := by
  intro t
  induction t using wrapDown.induct D with
  | case1 t hg ih =>
      intro h0
      obtain ⟨_, hDt⟩ := hg
      rw [wrapDown]
      simp only [dif_pos (And.intro hD hDt)]
      rw [ih (by linarith), qmod_sub_self hD]
  | case2 t hg =>
      intro h0
      have hlt : t < D := by
        by_contra hcon
        exact hg ⟨hD, not_lt.mp hcon⟩
      rw [wrapDown]
      simp only [dif_neg hg]
      exact (qmod_eq_self h0 hlt).symm

lemma wrapUp_spec {D : ℚ} (hD : 0 < D) : ∀ t : ℚ, t < D → wrapUp D t = qmod t D := by
  intro t
  induction t using wrapUp.induct D with
  | case1 t hg ih =>
      intro hlt
      obtain ⟨_, ht0⟩ := hg
      rw [wrapUp]
      simp only [dif_pos (And.intro hD ht0)]
      rw [ih (by linarith), qmod_add_self hD]
  | case2 t hg =>
      intro hlt
      have h0 : 0 ≤ t := by
        by_contra hcon
        exact hg ⟨hD, not_le.mp hcon⟩
      rw [wrapUp]
      simp only [dif_neg hg]
      exact (qmod_eq_self h0 hlt).symm

/-- The two while loops of `update` together compute `t mod D ∈ [0, D)`. -/
lemma wrap_full {D : ℚ} (hD : 0 < D) (t : ℚ) :
    wrapUp D (wrapDown D t) = qmod t D := by
  rcases le_or_lt 0 t with h0 | h0
  · rw [wrapDown_spec hD t h0]
    exact wrapUp_of_nonneg (not_lt.mpr (qmod_nonneg hD t))
  · have hd : wrapDown D t = t := wrapDown_of_neg (by linarith)
    rw [hd, wrapUp_spec hD t (by linarith)]

end GltfSpec

namespace GltfSpec

/-- Invariant: a playing, unpaused, looping controller whose time lies in
`[0, duration)` ends a sequence of updates with
`time = (start + Σ rate·δᵢ) mod duration` and every other field intact. -/
lemma updateSeq_loop (deltas : List ℚ) : ∀ s : AnimState,
    s.isPlaying = true → s.isPaused = false → s.hasAnimation = true →
    s.loop = true → 0 < s.duration → 0 ≤ s.time → s.time < s.duration →
    s.updateSeq deltas =
      { s with time := qmod (s.time + (deltas.map (fun d => d * s.playbackRate)).sum) s.duration } := by
  induction deltas with
  | nil =>
      intro s h1 h2 h3 h4 h5 h6 h7
      simp only [AnimState.updateSeq, List.foldl_nil, List.map_nil, List.sum_nil, add_zero]
      rw [qmod_eq_self h6 h7]
  | cons d ds ih =>
      intro s h1 h2 h3 h4 h5 h6 h7
      have hstep : s.update d =
          { s with time := qmod (s.time + d * s.playbackRate) s.duration } := by
        unfold AnimState.update
        rw [if_neg (by simp [h1, h2, h3]), if_neg (by simp [not_le.mpr h5]), if_pos h4]
        rw [wrap_full h5]
      have hrec := ih { s with time := qmod (s.time + d * s.playbackRate) s.duration }
        h1 h2 h3 h4 h5 (qmod_nonneg h5 _) (qmod_lt h5 _)
      have hseq : s.updateSeq (d :: ds) = (s.update d).updateSeq ds := rfl
      rw [hseq, hstep, hrec, List.map_cons, List.sum_cons, qmod_qmod_add h5, add_assoc]

end GltfSpec

/-- **C6.** For a playing, unpaused controller with a looping clip of
duration `D > 0`, started at time 0, any sequence of `update` calls whose
rate-scaled deltas sum to `T` leaves the controller in exactly the state —
hence, the pose pipeline being a deterministic function of the state, in
the same pose — produced by a single `setTime(T mod D)` from the same
starting state. -/
theorem c6_looping_updates_equal_setTime_mod
    (s : GltfSpec.AnimState) (deltas : List ℚ)
    (h1 : s.isPlaying = true) (h2 : s.isPaused = false)
    (h3 : s.hasAnimation = true) (h4 : s.loop = true)
    (h5 : 0 < s.duration) (h6 : s.time = 0) :
    s.updateSeq deltas =
      s.setTime (GltfSpec.qmod ((deltas.map (fun d => d * s.playbackRate)).sum) s.duration) := by
  have key := GltfSpec.updateSeq_loop deltas s h1 h2 h3 h4 h5 (le_of_eq h6.symm) (h6 ▸ h5)
  rw [key]
  unfold GltfSpec.AnimState.setTime
  rw [if_neg (by simp [h3])]
  have hq0 : 0 ≤ GltfSpec.qmod ((deltas.map (fun d => d * s.playbackRate)).sum) s.duration :=
    GltfSpec.qmod_nonneg h5 _
  have hqD : GltfSpec.qmod ((deltas.map (fun d => d * s.playbackRate)).sum) s.duration < s.duration :=
    GltfSpec.qmod_lt h5 _
  rw [h6, zero_add]
  congr 1
  rw [min_eq_left hqD.le, max_eq_right hq0]

/-- Witness for C6 at a concrete controller: duration 2, rate 1, two
updates of 3/2 (total 3, and 3 mod 2 = 1). -/
theorem c6_looping_updates_equal_setTime_mod_witness :
    ((⟨true, 2, 0, true, false, 1, true, 0⟩ : GltfSpec.AnimState).isPlaying = true ∧
     (⟨true, 2, 0, true, false, 1, true, 0⟩ : GltfSpec.AnimState).isPaused = false ∧
     (0 : ℚ) < 2) ∧
    (⟨true, 2, 0, true, false, 1, true, 0⟩ : GltfSpec.AnimState).updateSeq [3/2, 3/2] =
      (⟨true, 2, 0, true, false, 1, true, 0⟩ : GltfSpec.AnimState).setTime
        (GltfSpec.qmod ((([3/2, 3/2] : List ℚ).map (fun d => d * (1:ℚ))).sum) 2) := by
  refine ⟨⟨rfl, rfl, by norm_num⟩, ?_⟩
  exact c6_looping_updates_equal_setTime_mod _ _ rfl rfl rfl rfl (by norm_num) rfl

/-- **C9.** In non-looping mode the completion path also fires at the start
boundary: when the rate-scaled delta is negative and drives the time below
0, `update` clamps the time to 0, clears the playing flag and fires the
`onComplete` callback. -/
theorem c9_nonloop_negative_completion
    (s : GltfSpec.AnimState) (deltaTime : ℚ)
    (h1 : s.isPlaying = true) (h2 : s.isPaused = false)
    (h3 : s.hasAnimation = true) (h4 : s.loop = false)
    (h5 : 0 < s.duration) (h6 : 0 ≤ s.time)
    (h7 : deltaTime * s.playbackRate < 0)
    (h8 : s.time + deltaTime * s.playbackRate < 0) :
    s.update deltaTime =
      { s with time := 0, isPlaying := false, completeCount := s.completeCount + 1 } := by
  unfold GltfSpec.AnimState.update
  rw [if_neg (by simp [h1, h2, h3]), if_neg (by simp [not_le.mpr h5]), if_neg (by simp [h4]),
      if_neg (by simp only [not_le]; linarith), if_pos h8]

/-- Witness for C9: controller at time 1 with duration 2, update by −3. -/
theorem c9_nonloop_negative_completion_witness :
    ((0 : ℚ) < 2 ∧ ((-3 : ℚ) * 1 < 0) ∧ ((1 : ℚ) + (-3) * 1 < 0)) ∧
    (⟨true, 2, 1, true, false, 1, false, 0⟩ : GltfSpec.AnimState).update (-3) =
      (⟨true, 2, 0, false, false, 1, false, 1⟩ : GltfSpec.AnimState) := by
  refine ⟨⟨by norm_num, by norm_num, by norm_num⟩, ?_⟩
  exact c9_nonloop_negative_completion _ _ rfl rfl rfl rfl (by norm_num) (by norm_num)
    (by norm_num) (by norm_num)

namespace GltfSpec

/-! ## AnimationController query accessors (part_007 lines 459-623)

`getSkinnedPositions`, `getSkinnedNormals`, `getMeshSkinningData` and
`getOriginalPositions` all `throw new Error` on an out-of-range index
(modelled as `Except.error`), whereas the joint query APIs
(`getJointWorldMatrix`, `getJointName`) return a `null`/empty sentinel
(modelled as `Option` / `""`).  Indices are `ℤ` so that negative JavaScript
arguments are represented. -/

/-- `MeshSkinningData` (types.ts): per-vertex joint indices and weights. -/
structure MeshSkinningData where
  joints : List ℕ
  weights : List ℚ
  deriving Repr, DecidableEq

/-- `AnimationMeshData` fields used by the accessors. -/
structure AnimMeshData where
  originalPositions : List ℚ
  skinningData : MeshSkinningData
  deriving Repr, DecidableEq

/-- A skeleton joint as the controller sees it (`_skinData.joints`). -/
structure CtrlJoint where
  name : String
  parentIndex : ℤ
  deriving Repr, DecidableEq

/-- The controller fields read by the query accessors. -/
structure AnimCtrl where
  meshes : List AnimMeshData
  skinnedPositions : List (List ℚ)
  skinnedNormals : List (Option (List ℚ))
  joints : List CtrlJoint
  jointWorldMatrices : List ℚ
  deriving Repr, DecidableEq

/-- `getSkinnedPositions(meshIndex)` (part_007 lines 464-469):
`throw new Error` on out-of-range index. -/
def AnimCtrl.getSkinnedPositions (c : AnimCtrl) (meshIndex : ℤ) :
    Except String (List ℚ) :=
  if meshIndex < 0 ∨ (c.skinnedPositions.length : ℤ) ≤ meshIndex then
    .error "Invalid mesh index"
  else .ok ((c.skinnedPositions.get? meshIndex.toNat).getD [])

/-- `getSkinnedNormals(meshIndex)` (part_007 lines 476-481). -/
def AnimCtrl.getSkinnedNormals (c : AnimCtrl) (meshIndex : ℤ) :
    Except String (Option (List ℚ)) :=
  if meshIndex < 0 ∨ (c.skinnedNormals.length : ℤ) ≤ meshIndex then
    .error "Invalid mesh index"
  else .ok ((c.skinnedNormals.get? meshIndex.toNat).getD none)

/-- `getMeshSkinningData(meshIndex)` (part_007 lines 505-510). -/
def AnimCtrl.getMeshSkinningData (c : AnimCtrl) (meshIndex : ℤ) :
    Except String MeshSkinningData :=
  if meshIndex < 0 ∨ (c.meshes.length : ℤ) ≤ meshIndex then
    .error "Invalid mesh index"
  else .ok (((c.meshes.get? meshIndex.toNat).map (fun m => m.skinningData)).getD ⟨[], []⟩)

/-- `getOriginalPositions(meshIndex)` (part_007 lines 516-521). -/
def AnimCtrl.getOriginalPositions (c : AnimCtrl) (meshIndex : ℤ) :
    Except String (List ℚ) :=
  if meshIndex < 0 ∨ (c.meshes.length : ℤ) ≤ meshIndex then
    .error "Invalid mesh index"
  else .ok (((c.meshes.get? meshIndex.toNat).map (fun m => m.originalPositions)).getD [])

/-- `getJointWorldMatrix(jointIndex)` (part_007 lines 541-548): returns
`null` (not a throw) on an out-of-range index, else a copy of the 16-float
slice. -/
def AnimCtrl.getJointWorldMatrix (c : AnimCtrl) (jointIndex : ℤ) :
    Option (List ℚ) :=
  if jointIndex < 0 ∨ (c.joints.length : ℤ) ≤ jointIndex then none
  else some ((c.jointWorldMatrices.drop (jointIndex.toNat * 16)).take 16)

/-- `getJointName(jointIndex)` (part_007 lines 601-606): empty-string
sentinel on an out-of-range index. -/
def AnimCtrl.getJointName (c : AnimCtrl) (jointIndex : ℤ) : String :=
  if jointIndex < 0 ∨ (c.joints.length : ℤ) ≤ jointIndex then ""
  else ((c.joints.get? jointIndex.toNat).map (fun j => j.name)).getD ""

end GltfSpec

/-- **C2 counterexample.** The claim says `getSkinnedPositions` never
throws for any integer index; on a controller with no meshes the call at
index 0 executes `throw new Error("Invalid mesh index: ...")` (modelled as
`Except.error`), so the claim is false. -/
theorem c2_counterexample_getSkinnedPositions_throws :
    (GltfSpec.AnimCtrl.getSkinnedPositions ⟨[], [], [], [], []⟩ 0) =
      Except.error "Invalid mesh index" := rfl

/-- **C2 (amended).** The joint query APIs (`getJointWorldMatrix`,
`getJointName`) do perform a defensive bounds check and return a
null/empty sentinel for any out-of-range integer index, but the mesh-index
accessors `getSkinnedPositions`, `getSkinnedNormals`, `getMeshSkinningData`
and `getOriginalPositions` instead throw an `Error` on any out-of-range
mesh index. -/
theorem c2_amended_mesh_accessors_throw_joint_queries_sentinel
    (c : GltfSpec.AnimCtrl) (i : ℤ)
    (hp : i < 0 ∨ (c.skinnedPositions.length : ℤ) ≤ i)
    (hn : i < 0 ∨ (c.skinnedNormals.length : ℤ) ≤ i)
    (hm : i < 0 ∨ (c.meshes.length : ℤ) ≤ i)
    (hj : i < 0 ∨ (c.joints.length : ℤ) ≤ i) :
    c.getSkinnedPositions i = Except.error "Invalid mesh index" ∧
    c.getSkinnedNormals i = Except.error "Invalid mesh index" ∧
    c.getMeshSkinningData i = Except.error "Invalid mesh index" ∧
    c.getOriginalPositions i = Except.error "Invalid mesh index" ∧
    c.getJointWorldMatrix i = none ∧
    c.getJointName i = "" := by
  refine ⟨?_, ?_, ?_, ?_, ?_, ?_⟩
  · unfold GltfSpec.AnimCtrl.getSkinnedPositions
    rw [if_pos hp]
  · unfold GltfSpec.AnimCtrl.getSkinnedNormals
    rw [if_pos hn]
  · unfold GltfSpec.AnimCtrl.getMeshSkinningData
    rw [if_pos hm]
  · unfold GltfSpec.AnimCtrl.getOriginalPositions
    rw [if_pos hm]
  · unfold GltfSpec.AnimCtrl.getJointWorldMatrix
    rw [if_pos hj]
  · unfold GltfSpec.AnimCtrl.getJointName
    rw [if_pos hj]

/-- Witness for the amended C2 at a concrete empty controller and index 3. -/
theorem c2_amended_mesh_accessors_throw_joint_queries_sentinel_witness :
    ((3 : ℤ) < 0 ∨ ((GltfSpec.AnimCtrl.mk [] [] [] [] []).skinnedPositions.length : ℤ) ≤ 3) ∧
    ((GltfSpec.AnimCtrl.mk [] [] [] [] []).getSkinnedPositions 3 = Except.error "Invalid mesh index" ∧
     (GltfSpec.AnimCtrl.mk [] [] [] [] []).getSkinnedNormals 3 = Except.error "Invalid mesh index" ∧
     (GltfSpec.AnimCtrl.mk [] [] [] [] []).getMeshSkinningData 3 = Except.error "Invalid mesh index" ∧
     (GltfSpec.AnimCtrl.mk [] [] [] [] []).getOriginalPositions 3 = Except.error "Invalid mesh index" ∧
     (GltfSpec.AnimCtrl.mk [] [] [] [] []).getJointWorldMatrix 3 = none ∧
     (GltfSpec.AnimCtrl.mk [] [] [] [] []).getJointName 3 = "") := by
  refine ⟨by decide, ?_⟩
  exact c2_amended_mesh_accessors_throw_joint_queries_sentinel _ 3
    (by decide) (by decide) (by decide) (by decide)

namespace GltfSpec

/-! ## Worker-side transform batch (WORKER_CODE, TransformWorkerPool.ts)

The worker keeps `meshCache : Map<meshId, {original, vertexCount,
floatCount}>` (REGISTER handler, lines 382-391) and answers
`TRANSFORM_BATCH` (lines 407-447) with one packed buffer, a mesh-id array
and an `N+1`-entry end-exclusive offset table.  Writing each mesh's result
into the packed `Float32Array` at its offset is modelled as concatenation
of the per-mesh output lists.  The handler's explicit empty-batch branch
(`meshIds = Uint32Array(0)`, `offsets = Uint32Array(1)` i.e. `[0]`,
`positions = Float32Array(0)`) produces exactly what the general path
produces on an empty entry list, so a single definition covers both. -/

/-- Worker cache entry built by the `REGISTER` handler. -/
structure MeshEntry where
  original : List ℚ
  vertexCount : ℕ
  floatCount : ℕ
  deriving Repr, DecidableEq

/-- One element of `msg.requests` in a `TRANSFORM_BATCH`. -/
structure TransformRequest where
  meshId : ℕ
  matrix : List ℚ
  deriving Repr, DecidableEq

/-- A `TRANSFORM_RESULTS` message. -/
structure TransformResponse where
  meshIds : List ℕ
  offsets : List ℕ
  positions : List ℚ
  deriving Repr, DecidableEq

/-- `transformVerticesInto` (WORKER_CODE lines 23-40): `matrix ×
originalPosition` per vertex, written at consecutive indices (modelled as
the output list).  Out-of-range reads return the `getD` default, which
never fires for a well-formed cache entry (`original.length =
3 * vertexCount`, matrix of 16 floats). -/
def transformVertices (original matrix : List ℚ) (vertexCount : ℕ) : List ℚ :=
  ((List.range vertexCount).map (fun i =>
    let x := original.getD (i * 3) 0
    let y := original.getD (i * 3 + 1) 0
    let z := original.getD (i * 3 + 2) 0
    [matrix.getD 0 0 * x + matrix.getD 4 0 * y + matrix.getD 8 0 * z + matrix.getD 12 0,
     matrix.getD 1 0 * x + matrix.getD 5 0 * y + matrix.getD 9 0 * z + matrix.getD 13 0,
     matrix.getD 2 0 * x + matrix.getD 6 0 * y + matrix.getD 10 0 * z + matrix.getD 14 0])).join

/-- The offset table: `offsets[i] = Σ_{j<i} counts[j]` with the final total
as end marker, exactly as accumulated by the handler's loop. -/
def prefixSums : List ℕ → List ℕ
  | [] => [0]
  | c :: cs => 0 :: (prefixSums cs).map (fun x => c + x)

/-- The `TRANSFORM_BATCH` handler (WORKER_CODE lines 407-447): mesh ids
absent from `meshCache` are skipped (`if (!entry) continue`); the response
packs results for the registered ids in request order. -/
def batchEntries (meshCache : List (ℕ × MeshEntry))
    (requests : List TransformRequest) : List (TransformRequest × MeshEntry) :=
  requests.filterMap
    (fun req => (meshCache.lookup req.meshId).map (fun e => (req, e)))

def transformBatchHandler (meshCache : List (ℕ × MeshEntry))
    (requests : List TransformRequest) : TransformResponse :=
  let meshEntries := batchEntries meshCache requests
  { meshIds := meshEntries.map (fun p => p.1.meshId)
    offsets := prefixSums (meshEntries.map (fun p => p.2.floatCount))
    positions := (meshEntries.map
      (fun p => transformVertices p.2.original p.1.matrix p.2.vertexCount)).join }

/-! ## Pool state and batching (TransformWorkerPool class)

The per-mesh callbacks held in the registries are abstracted: instead of
invoking stored closures, response handling returns the list of
invocations (mesh id plus the exact buffer slices passed), in order.  The
light-config payload is opaque to the pool (it is only forwarded to
workers), so the pool model is polymorphic in that payload type `C`. -/

/-- `MeshRegistration` minus the callback: the assigned worker index. -/
structure SkinnedReg where
  workerIndex : ℕ
  hasNormals : Bool
  deriving Repr, DecidableEq

/-- `PendingSkinRequest` (lines 666-670). -/
structure PendingSkinReq (C : Type) where
  meshIds : List ℕ
  boneMatrices : List ℚ
  lightConfig : Option C

/-- `PendingLightingRequest` (lines 672-675). -/
structure PendingLightingReq (C : Type) where
  meshIds : List ℕ
  lightConfig : C

/-- A message posted to a worker by `flush`. -/
inductive PoolMessage (C : Type) where
  | transformBatch (requests : List TransformRequest)
  | skinBatch (meshIds : List ℕ) (boneMatrices : List ℚ) (lightConfig : Option C)
  | lightingBatch (meshIds : List ℕ) (lightConfig : C)

/-- Kind discriminators for counting messages per request kind. -/
def PoolMessage.isTransform {C : Type} : PoolMessage C → Bool
  | .transformBatch _ => true
  | _ => false

def PoolMessage.isSkin {C : Type} : PoolMessage C → Bool
  | .skinBatch _ _ _ => true
  | _ => false

def PoolMessage.isLighting {C : Type} : PoolMessage C → Bool
  | .lightingBatch _ _ => true
  | _ => false

/-- `PendingResult` (lines 677-685). -/
structure PendingResult where
  meshIds : List ℕ
  offsets : List ℕ
  positions : Option (List ℚ)
  normals : Option (List ℚ)
  colors : Option (List ℚ)
  isSkinning : Bool
  isLighting : Bool
  deriving Repr, DecidableEq

/-- The mutable fields of `TransformWorkerPool` (lines 687-701).
`flushResolvers` keeps only the count of parked `flush` promises;
`pendingResponses` is an integer because the code decrements it without a
lower bound. -/
structure PoolState (C : Type) where
  workerCount : ℕ
  disposed : Bool
  meshRegistry : List (ℕ × ℕ)
  skinnedMeshRegistry : List (ℕ × SkinnedReg)
  staticLightingRegistry : List (ℕ × ℕ)
  pendingByWorker : List (List TransformRequest)
  pendingSkinByWorker : List (List (PendingSkinReq C))
  pendingLightingByWorker : List (List (PendingLightingReq C))
  flushResolvers : ℕ
  pendingResponses : ℤ
  pendingResults : List PendingResult

/-- Append to the i-th worker's pending list. -/
def pushAt {α : Type} (l : List (List α)) (i : ℕ) (a : α) : List (List α) :=
  l.set i (l.getD i [] ++ [a])

/-- `queueTransform` (lines 751-764): unregistered ids warn and return. -/
def queueTransform {C : Type} (s : PoolState C) (meshId : ℕ) (matrix : List ℚ) :
    PoolState C :=
  if s.disposed then s
  else
    match s.meshRegistry.lookup meshId with
    | none => s
    | some w => { s with pendingByWorker := pushAt s.pendingByWorker w ⟨meshId, matrix⟩ }

/-- Append a mesh id to its worker's group, preserving the `Map` insertion
order of `byWorker` in `queueSkinning`/`queueStaticLighting`. -/
def insertGroup : List (ℕ × List ℕ) → ℕ → ℕ → List (ℕ × List ℕ)
  | [], w, m => [(w, [m])]
  | (w', ms) :: rest, w, m =>
      if w' = w then (w', ms ++ [m]) :: rest else (w', ms) :: insertGroup rest w m

/-- The `byWorker` grouping loop shared by `queueSkinning` (lines 856-869)
and `queueStaticLighting` (lines 891-903): unregistered ids are skipped. -/
def groupByWorker (lookupWorker : ℕ → Option ℕ) (meshIds : List ℕ) :
    List (ℕ × List ℕ) :=
  meshIds.foldl (fun acc meshId =>
    match lookupWorker meshId with
    | none => acc
    | some w => insertGroup acc w meshId) []

/-- `queueSkinning` (lines 851-879): one `PendingSkinRequest` is pushed per
worker group — each call can add a further request to the same worker. -/
def queueSkinning {C : Type} (s : PoolState C) (meshIds : List ℕ)
    (boneMatrices : List ℚ) (lightConfig : Option C) : PoolState C :=
  if s.disposed then s
  else if meshIds = [] then s
  else
    (groupByWorker (fun m => (s.skinnedMeshRegistry.lookup m).map (fun r => r.workerIndex))
        meshIds).foldl
      (fun st p =>
        { st with pendingSkinByWorker :=
            pushAt st.pendingSkinByWorker p.1 ⟨p.2, boneMatrices, lightConfig⟩ }) s

/-- `queueStaticLighting` (lines 886-912). -/
def queueStaticLighting {C : Type} (s : PoolState C) (meshIds : List ℕ)
    (lightConfig : C) : PoolState C :=
  if s.disposed then s
  else if meshIds = [] then s
  else
    (groupByWorker (fun m => s.staticLightingRegistry.lookup m) meshIds).foldl
      (fun st p =>
        { st with pendingLightingByWorker :=
            pushAt st.pendingLightingByWorker p.1 ⟨p.2, lightConfig⟩ }) s

/-- The messages worker `i` receives during `flush` (lines 922-959): the
queued transforms as one `TRANSFORM_BATCH` if nonempty, then one
`SKIN_BATCH` per pending skin request, then one `LIGHTING_BATCH` per
pending lighting request. -/
def workerChunk {C : Type} (s : PoolState C) (i : ℕ) : List (ℕ × PoolMessage C) :=
  (if (s.pendingByWorker.getD i []) ≠ [] then
    [(i, PoolMessage.transformBatch (s.pendingByWorker.getD i []))] else [])
  ++ (s.pendingSkinByWorker.getD i []).map
       (fun r => (i, PoolMessage.skinBatch r.meshIds r.boneMatrices r.lightConfig))
  ++ (s.pendingLightingByWorker.getD i []).map
       (fun r => (i, PoolMessage.lightingBatch r.meshIds r.lightConfig))

/-- All messages posted by one `flush`, workers in index order. -/
def flushMessages {C : Type} (s : PoolState C) : List (ℕ × PoolMessage C) :=
  ((List.range s.workerCount).map (workerChunk s)).join

/-- `flush` (lines 918-969).  `workersWithWork` is incremented once per
posted message (once per worker's transform batch, once per skin request,
once per lighting request), so it equals the number of messages.  All
pending queues are cleared; when nothing was posted the method returns
before arming `pendingResponses` or parking a resolver. -/
def flush {C : Type} (s : PoolState C) : PoolState C × List (ℕ × PoolMessage C) :=
  if s.disposed then (s, [])
  else
    let msgs := flushMessages s
    let cleared := { s with
      pendingByWorker := List.replicate s.workerCount ([] : List TransformRequest),
      pendingSkinByWorker := List.replicate s.workerCount ([] : List (PendingSkinReq C)),
      pendingLightingByWorker :=
        List.replicate s.workerCount ([] : List (PendingLightingReq C)) }
    if msgs.length = 0 then (cleared, msgs)
    else
      let armed := { cleared with
        pendingResponses := (msgs.length : ℤ)
        flushResolvers := s.flushResolvers + 1 }
      (armed, msgs)

end GltfSpec

namespace GltfSpec

/-! ## Response handling (`_handleMessage`, `_checkFlushComplete`,
`_invokeAllCallbacks`, lines 971-1082)

Callback invocation is materialised as a list of `Invocation` values (the
mesh id plus the exact subarray slices the stored callback receives), in
invocation order. -/

/-- A callback invocation performed by `_invokeAllCallbacks`. -/
inductive Invocation where
  | transform (meshId : ℕ) (positions : List ℚ)
  | skinning (meshId : ℕ) (positions : List ℚ)
      (normals : Option (List ℚ)) (colors : Option (List ℚ))
  | lighting (meshId : ℕ) (colors : List ℚ)
  deriving Repr, DecidableEq

/-- A message received from a worker.  Field presence mirrors the
`msg.positions && msg.meshIds && msg.offsets` truthiness checks (a present
but empty typed array is truthy, hence `some []` passes). -/
structure WorkerResponseMsg where
  rtype : String
  meshIds : Option (List ℕ)
  offsets : Option (List ℕ)
  positions : Option (List ℚ)
  normals : Option (List ℚ)
  colors : Option (List ℚ)
  deriving Repr, DecidableEq

/-- The guard under which `_handleMessage` collects a result. -/
def WorkerResponseMsg.valid (m : WorkerResponseMsg) : Bool :=
  ((m.rtype == "TRANSFORM_RESULTS" || m.rtype == "SKIN_RESULTS")
      && m.positions.isSome && m.meshIds.isSome && m.offsets.isSome)
    || (m.rtype == "LIGHTING_RESULTS"
      && m.colors.isSome && m.meshIds.isSome && m.offsets.isSome)

/-- The `PendingResult` pushed by `_handleMessage` for a message passing
its guard. -/
def responseToResult (m : WorkerResponseMsg) : PendingResult :=
  if m.rtype == "TRANSFORM_RESULTS" || m.rtype == "SKIN_RESULTS" then
    { meshIds := m.meshIds.getD [], offsets := m.offsets.getD []
      positions := m.positions, normals := m.normals, colors := m.colors
      isSkinning := m.rtype == "SKIN_RESULTS", isLighting := false }
  else
    { meshIds := m.meshIds.getD [], offsets := m.offsets.getD []
      positions := none, normals := none, colors := m.colors
      isSkinning := false, isLighting := true }

/-- `colorOffset` accumulated by the skinning branch of
`_invokeAllCallbacks`: it advances by `vertexCount * 4` for every entry,
registered or not. -/
def colorOffsetAt (offsets : List ℕ) (i : ℕ) : ℕ :=
  ((List.range i).map
    (fun j => (offsets.getD (j + 1) 0 - offsets.getD j 0) / 3 * 4)).sum

/-- One result's callback invocations (`_invokeAllCallbacks` body,
lines 1032-1078).  Ids without a registration are skipped silently. -/
def invokeResult (meshRegistry : List (ℕ × ℕ))
    (skinnedMeshRegistry : List (ℕ × SkinnedReg))
    (staticLightingRegistry : List (ℕ × ℕ)) (res : PendingResult) :
    List Invocation :=
  if res.isLighting then
    (List.range res.meshIds.length).filterMap (fun i =>
      let meshId := res.meshIds.getD i 0
      let start := res.offsets.getD i 0
      let stop := res.offsets.getD (i + 1) 0
      match staticLightingRegistry.lookup meshId, res.colors with
      | some _, some colors =>
          some (.lighting meshId ((colors.drop start).take (stop - start)))
      | _, _ => none)
  else if res.isSkinning then
    (List.range res.meshIds.length).filterMap (fun i =>
      let meshId := res.meshIds.getD i 0
      let start := res.offsets.getD i 0
      let stop := res.offsets.getD (i + 1) 0
      let vertexCount := (stop - start) / 3
      match skinnedMeshRegistry.lookup meshId, res.positions with
      | some reg, some positions =>
          some (.skinning meshId ((positions.drop start).take (stop - start))
            (match res.normals with
             | some normals =>
                 if reg.hasNormals then
                   some ((normals.drop start).take (stop - start))
                 else none
             | none => none)
            (res.colors.map (fun colors =>
              (colors.drop (colorOffsetAt res.offsets i)).take (vertexCount * 4))))
      | _, _ => none)
  else
    (List.range res.meshIds.length).filterMap (fun i =>
      let meshId := res.meshIds.getD i 0
      let start := res.offsets.getD i 0
      let stop := res.offsets.getD (i + 1) 0
      match meshRegistry.lookup meshId, res.positions with
      | some _, some positions =>
          some (.transform meshId ((positions.drop start).take (stop - start)))
      | _, _ => none)

/-- `_invokeAllCallbacks` over all collected results of a state. -/
def invokeAllResults {C : Type} (s : PoolState C) : List Invocation :=
  (s.pendingResults.map (invokeResult s.meshRegistry s.skinnedMeshRegistry
    s.staticLightingRegistry)).join

/-- `_checkFlushComplete` (lines 1012-1025): decrement; on reaching zero,
invoke every collected callback and resolve (and discard) every parked
flush promise. -/
def checkFlushComplete {C : Type} (s : PoolState C) :
    PoolState C × List Invocation :=
  let s1 := { s with pendingResponses := s.pendingResponses - 1 }
  if s1.pendingResponses = 0 then
    ({ s1 with pendingResults := [], flushResolvers := 0 }, invokeAllResults s1)
  else (s1, [])

/-- `_handleMessage` (lines 971-1010): collect the result of a recognised
message and run `_checkFlushComplete`; unrecognised messages are dropped
without touching any counter. -/
def handleMessage {C : Type} (s : PoolState C) (m : WorkerResponseMsg) :
    PoolState C × List Invocation :=
  if m.valid then
    checkFlushComplete
      { s with pendingResults := s.pendingResults ++ [responseToResult m] }
  else (s, [])

/-- Deliver a sequence of worker responses, concatenating the callback
invocations each step performs. -/
def processResponses {C : Type} (s : PoolState C)
    (msgs : List WorkerResponseMsg) : PoolState C × List Invocation :=
  msgs.foldl (fun acc m =>
    let r := handleMessage acc.1 m
    (r.1, acc.2 ++ r.2)) (s, [])

end GltfSpec

namespace GltfSpec

/-- Mesh id of an invocation. -/
def Invocation.meshId : Invocation → ℕ
  | .transform m _ => m
  | .skinning m _ _ _ => m
  | .lighting m _ => m

lemma lookup_mem {β : Type} (k : ℕ) (v : β) :
    ∀ (l : List (ℕ × β)), l.lookup k = some v → (k, v) ∈ l := by
  intro l
  induction l with
  | nil => intro h; simp [List.lookup] at h
  | cons a l ih =>
      intro h
      obtain ⟨ka, va⟩ := a
      simp only [List.lookup] at h
      by_cases hk : k = ka
      · subst hk
        simp only [beq_self_eq_true] at h
        injection h with h
        subst h
        exact List.mem_cons_self _ _
      · rw [beq_eq_false_iff_ne.mpr hk] at h
        exact List.mem_cons_of_mem _ (ih h)

lemma transformVertices_length (original matrix : List ℚ) (vertexCount : ℕ) :
    (transformVertices original matrix vertexCount).length = 3 * vertexCount := by
  unfold transformVertices
  rw [List.length_join, List.map_map]
  have : ∀ i ∈ List.range vertexCount,
      (List.length ∘ fun i =>
        let x := original.getD (i * 3) 0
        let y := original.getD (i * 3 + 1) 0
        let z := original.getD (i * 3 + 2) 0
        [matrix.getD 0 0 * x + matrix.getD 4 0 * y + matrix.getD 8 0 * z + matrix.getD 12 0,
         matrix.getD 1 0 * x + matrix.getD 5 0 * y + matrix.getD 9 0 * z + matrix.getD 13 0,
         matrix.getD 2 0 * x + matrix.getD 6 0 * y + matrix.getD 10 0 * z + matrix.getD 14 0]) i
        = 3 := by
    intro i _
    rfl
  rw [List.map_congr_left this]
  simp [List.map_const, List.sum_replicate, Nat.mul_comm]

lemma prefixSums_length (l : List ℕ) : (prefixSums l).length = l.length + 1 := by
  induction l with
  | nil => rfl
  | cons c cs ih => simp [prefixSums, ih]

lemma prefixSums_getD :
    ∀ (l : List ℕ) (k : ℕ), k ≤ l.length →
      (prefixSums l).getD k 0 = (l.take k).sum := by
  intro l
  induction l with
  | nil =>
      intro k hk
      have hk0 : k = 0 := Nat.le_zero.mp hk
      subst hk0
      rfl
  | cons c cs ih =>
      intro k hk
      cases k with
      | zero => rfl
      | succ k =>
          have hk' : k ≤ cs.length := by simpa using hk
          have hlen : k < (prefixSums cs).length := by
            rw [prefixSums_length]; omega
          show ((0 : ℕ) :: (prefixSums cs).map (fun x => c + x)).getD (k + 1) 0 = _
          rw [List.getD_cons_succ, List.getD_eq_getElem?_getD, List.getElem?_map,
            List.getElem?_eq_getElem hlen]
          simp only [Option.map_some', Option.getD_some]
          have hih := ih k hk'
          rw [List.getD_eq_getElem?_getD, List.getElem?_eq_getElem hlen,
            Option.getD_some] at hih
          rw [hih, List.take_succ_cons, List.sum_cons]

lemma take_succ_sum (l : List ℕ) (k : ℕ) (hk : k < l.length) :
    (l.take (k + 1)).sum = (l.take k).sum + l.getD k 0 := by
  rw [List.take_succ, List.sum_append]
  congr 1
  rw [List.getElem?_eq_getElem hk, List.getD_eq_getElem?_getD,
    List.getElem?_eq_getElem hk]
  simp

lemma join_segment :
    ∀ (ls : List (List ℚ)) (k : ℕ), k < ls.length →
      ((ls.join).drop (((ls.map List.length).take k).sum)).take
          ((ls.map List.length).getD k 0) = ls.getD k [] := by
  intro ls
  induction ls with
  | nil =>
      intro k hk
      exact absurd hk (by simp)
  | cons a ls ih =>
      intro k hk
      cases k with
      | zero =>
          simp only [List.map_cons, List.take_zero, List.sum_nil, List.drop_zero,
            List.join_cons, List.getD_cons_zero]
          exact List.take_left a ls.join
      | succ k =>
          have hk' : k < ls.length := by simpa using hk
          simp only [List.map_cons, List.take_succ_cons, List.sum_cons, List.join_cons,
            List.getD_cons_succ]
          have hdrop : (a ++ ls.join).drop (a.length + ((ls.map List.length).take k).sum)
              = (ls.join).drop (((ls.map List.length).take k).sum) := by
            rw [← List.drop_drop, List.drop_left]
          rw [hdrop]
          exact ih k hk'

lemma filterMap_lookup_ids (cache : List (ℕ × MeshEntry)) :
    ∀ (requests : List TransformRequest),
      (requests.filterMap
        (fun req => (cache.lookup req.meshId).map (fun e => (req, e)))).map
          (fun p => p.1.meshId)
        = (requests.filter (fun r => (cache.lookup r.meshId).isSome)).map
            (fun r => r.meshId) := by
  intro requests
  induction requests with
  | nil => rfl
  | cons r rs ih =>
      cases hl : cache.lookup r.meshId with
      | none => simpa [List.filterMap_cons, List.filter_cons, hl] using ih
      | some e => simpa [List.filterMap_cons, List.filter_cons, hl] using ih

end GltfSpec

namespace GltfSpec

/-- Entries of a batch obey the REGISTER invariants when the cache does. -/
lemma batchEntries_wf {cache : List (ℕ × MeshEntry)} (requests : List TransformRequest)
    (hwf : ∀ p ∈ cache,
      p.2.original.length = 3 * p.2.vertexCount ∧ p.2.floatCount = 3 * p.2.vertexCount) :
    ∀ p ∈ batchEntries cache requests,
      p.2.original.length = 3 * p.2.vertexCount ∧ p.2.floatCount = 3 * p.2.vertexCount := by
  intro p hp
  rw [batchEntries, List.mem_filterMap] at hp
  obtain ⟨req, _, heq⟩ := hp
  rw [Option.map_eq_some'] at heq
  obtain ⟨e, hle, hfe⟩ := heq
  have hmem := lookup_mem req.meshId e cache hle
  have := hwf (req.meshId, e) hmem
  rw [← hfe]
  exact this

end GltfSpec

/-- **C4.** The worker's `TRANSFORM_BATCH` handler silently skips mesh ids
absent from its cache, on the request side (the response's mesh-id array is
exactly the registered ids in request order) and, via
`_invokeAllCallbacks`, on the response side (only registered ids produce a
callback).  The response carries an `(N+1)`-entry end-exclusive offset
table whose ranges demultiplex the packed buffer into each registered
mesh's transformed positions, the last offset being the buffer's total
length; the handler is a total function, so no error is thrown for the
batch. -/
theorem c4_transform_batch_partial_failure
    (cache : List (ℕ × GltfSpec.MeshEntry)) (requests : List GltfSpec.TransformRequest)
    (hwf : ∀ p ∈ cache,
      p.2.original.length = 3 * p.2.vertexCount ∧ p.2.floatCount = 3 * p.2.vertexCount) :
    (GltfSpec.transformBatchHandler cache requests).meshIds =
      (requests.filter (fun r => (cache.lookup r.meshId).isSome)).map (fun r => r.meshId) ∧
    (GltfSpec.transformBatchHandler cache requests).offsets.length =
      (GltfSpec.transformBatchHandler cache requests).meshIds.length + 1 ∧
    (GltfSpec.transformBatchHandler cache requests).positions.length =
      (GltfSpec.transformBatchHandler cache requests).offsets.getD
        (GltfSpec.transformBatchHandler cache requests).meshIds.length 0 ∧
    (∀ k, k < (GltfSpec.batchEntries cache requests).length →
      ((GltfSpec.transformBatchHandler cache requests).positions.drop
          ((GltfSpec.transformBatchHandler cache requests).offsets.getD k 0)).take
        ((GltfSpec.transformBatchHandler cache requests).offsets.getD (k + 1) 0 -
          (GltfSpec.transformBatchHandler cache requests).offsets.getD k 0) =
      GltfSpec.transformVertices
        ((GltfSpec.batchEntries cache requests).getD k ⟨⟨0, []⟩, ⟨[], 0, 0⟩⟩).2.original
        ((GltfSpec.batchEntries cache requests).getD k ⟨⟨0, []⟩, ⟨[], 0, 0⟩⟩).1.matrix
        ((GltfSpec.batchEntries cache requests).getD k ⟨⟨0, []⟩, ⟨[], 0, 0⟩⟩).2.vertexCount) ∧
    (∀ (meshRegistry : List (ℕ × ℕ)),
      ∀ inv ∈ GltfSpec.invokeResult meshRegistry [] []
        ⟨(GltfSpec.transformBatchHandler cache requests).meshIds,
         (GltfSpec.transformBatchHandler cache requests).offsets,
         some (GltfSpec.transformBatchHandler cache requests).positions,
         none, none, false, false⟩,
        (meshRegistry.lookup inv.meshId).isSome = true) := by
  set E := GltfSpec.batchEntries cache requests with hE
  set ls := E.map
    (fun p => GltfSpec.transformVertices p.2.original p.1.matrix p.2.vertexCount) with hls
  have hEwf := GltfSpec.batchEntries_wf requests hwf
  have hmaplen : ls.map List.length = E.map (fun p => p.2.floatCount) := by
    rw [hls, List.map_map]
    apply List.map_congr_left
    intro p hp
    simp only [Function.comp_apply]
    rw [GltfSpec.transformVertices_length, (hEwf p hp).2]
  have hresp : GltfSpec.transformBatchHandler cache requests =
      { meshIds := E.map (fun p => p.1.meshId)
        offsets := GltfSpec.prefixSums (E.map (fun p => p.2.floatCount))
        positions := ls.join } := rfl
  refine ⟨?_, ?_, ?_, ?_, ?_⟩
  · rw [hresp]
    exact GltfSpec.filterMap_lookup_ids cache requests
  · rw [hresp]
    simp only
    rw [GltfSpec.prefixSums_length]
    simp
  · rw [hresp]
    simp only
    rw [List.length_join, GltfSpec.prefixSums_getD _ _ (by simp),
        ← hmaplen, List.length_map]
    rw [show E.length = (ls.map List.length).length by simp [hls], List.take_length]
  · intro k hk
    rw [hresp]
    simp only
    have hk1 : k ≤ (E.map (fun p => p.2.floatCount)).length := by
      rw [List.length_map]; omega
    have hk2 : k < (E.map (fun p => p.2.floatCount)).length := by
      rw [List.length_map]; omega
    rw [GltfSpec.prefixSums_getD _ _ hk1,
        GltfSpec.prefixSums_getD _ _ (by rw [List.length_map]; omega),
        GltfSpec.take_succ_sum _ _ hk2, Nat.add_sub_cancel_left, ← hmaplen]
    have hseg := GltfSpec.join_segment ls k (by rw [hls, List.length_map]; exact hk)
    rw [hseg, hls]
    rw [List.getD_eq_getElem?_getD, List.getElem?_map, List.getElem?_eq_getElem hk,
        Option.map_some', Option.getD_some, List.getD_eq_getElem?_getD,
        List.getElem?_eq_getElem hk, Option.getD_some]
  · intro meshRegistry inv hinv
    rw [GltfSpec.invokeResult] at hinv
    simp only [Bool.false_eq_true, if_false, List.mem_filterMap] at hinv
    obtain ⟨i, _, heq⟩ := hinv
    rcases hl : meshRegistry.lookup
        ((GltfSpec.transformBatchHandler cache requests).meshIds.getD i 0) with _ | w
    · rw [hl] at heq
      simp at heq
    · rw [hl] at heq
      simp only [Option.some.injEq] at heq
      rw [← heq]
      simp only [GltfSpec.Invocation.meshId]
      rw [hl]
      rfl

/-- Witness for C4: a cache with meshes 1 and 2 and a batch requesting
meshes 1, 99 (unregistered) and 2. -/
theorem c4_transform_batch_partial_failure_witness :
    (∀ p ∈ [((1 : ℕ), GltfSpec.MeshEntry.mk [1, 2, 3] 1 3),
            ((2 : ℕ), GltfSpec.MeshEntry.mk [4, 5, 6, 7, 8, 9] 2 6)],
      p.2.original.length = 3 * p.2.vertexCount ∧ p.2.floatCount = 3 * p.2.vertexCount) ∧
    ((GltfSpec.transformBatchHandler
        [(1, ⟨[1, 2, 3], 1, 3⟩), (2, ⟨[4, 5, 6, 7, 8, 9], 2, 6⟩)]
        [⟨1, [1, 0, 0, 0, 0, 1, 0, 0, 0, 0, 1, 0, 0, 0, 0, 1]⟩,
         ⟨99, [1, 0, 0, 0, 0, 1, 0, 0, 0, 0, 1, 0, 0, 0, 0, 1]⟩,
         ⟨2, [1, 0, 0, 0, 0, 1, 0, 0, 0, 0, 1, 0, 0, 0, 0, 1]⟩]).meshIds =
      (([⟨1, [1, 0, 0, 0, 0, 1, 0, 0, 0, 0, 1, 0, 0, 0, 0, 1]⟩,
         ⟨99, [1, 0, 0, 0, 0, 1, 0, 0, 0, 0, 1, 0, 0, 0, 0, 1]⟩,
         ⟨2, [1, 0, 0, 0, 0, 1, 0, 0, 0, 0, 1, 0, 0, 0, 0, 1]⟩] :
          List GltfSpec.TransformRequest).filter
        (fun r => (([((1 : ℕ), GltfSpec.MeshEntry.mk [1, 2, 3] 1 3),
            ((2 : ℕ), GltfSpec.MeshEntry.mk [4, 5, 6, 7, 8, 9] 2 6)]).lookup r.meshId).isSome)).map
        (fun r => r.meshId)) := by
  refine ⟨by decide, ?_⟩
  exact (c4_transform_batch_partial_failure
    [(1, ⟨[1, 2, 3], 1, 3⟩), (2, ⟨[4, 5, 6, 7, 8, 9], 2, 6⟩)]
    [⟨1, [1, 0, 0, 0, 0, 1, 0, 0, 0, 0, 1, 0, 0, 0, 0, 1]⟩,
     ⟨99, [1, 0, 0, 0, 0, 1, 0, 0, 0, 0, 1, 0, 0, 0, 0, 1]⟩,
     ⟨2, [1, 0, 0, 0, 0, 1, 0, 0, 0, 0, 1, 0, 0, 0, 0, 1]⟩]
    (by decide)).1

namespace GltfSpec

lemma workerChunk_fst {C : Type} (s : PoolState C) (i : ℕ) :
    ∀ x ∈ workerChunk s i, x.1 = i := by
  intro x hx
  unfold workerChunk at hx
  rcases List.mem_append.mp hx with hx | hx
  · rcases List.mem_append.mp hx with hx | hx
    · split at hx
      · simp only [List.mem_singleton] at hx
        rw [hx]
      · simp at hx
    · obtain ⟨r, _, hr⟩ := List.mem_map.mp hx
      rw [← hr]
  · obtain ⟨r, _, hr⟩ := List.mem_map.mp hx
    rw [← hr]

lemma filter_join_byWorker {C : Type} (f : ℕ → List (ℕ × PoolMessage C))
    (hf : ∀ j, ∀ x ∈ f j, x.1 = j) (p : PoolMessage C → Bool) (i : ℕ) :
    ∀ (idxs : List ℕ), idxs.Nodup →
      ((idxs.map f).join.filter (fun m => m.1 == i && p m.2)) =
        if i ∈ idxs then (f i).filter (fun m => m.1 == i && p m.2) else [] := by
  intro idxs
  induction idxs with
  | nil => intro _; simp
  | cons j idxs ih =>
      intro hnd
      have hnd' := List.nodup_cons.mp hnd
      simp only [List.map_cons, List.join_cons]
      rw [List.filter_append, ih hnd'.2]
      by_cases hij : i = j
      · subst hij
        rw [if_neg hnd'.1, if_pos (List.mem_cons_self _ _)]
        simp
      · have hfj : (f j).filter (fun m => m.1 == i && p m.2) = [] := by
          rw [List.filter_eq_nil]
          intro a ha
          have := hf j a ha
          simp [this, Ne.symm hij]
        rw [hfj, List.nil_append]
        by_cases hmem : i ∈ idxs
        · rw [if_pos hmem, if_pos (List.mem_cons_of_mem _ hmem)]
        · rw [if_neg hmem, if_neg (by simp [hij, hmem])]

lemma flush_snd_eq {C : Type} (s : PoolState C) (h : s.disposed = false) :
    (flush s).2 = flushMessages s := by
  unfold flush
  rw [if_neg (by simp [h])]
  dsimp only
  split
  · rfl
  · rfl

lemma filter_flushMessages {C : Type} (s : PoolState C) (p : PoolMessage C → Bool)
    (i : ℕ) :
    (flushMessages s).filter (fun m => m.1 == i && p m.2) =
      if i < s.workerCount then
        (workerChunk s i).filter (fun m => m.1 == i && p m.2)
      else [] := by
  rw [flushMessages,
    filter_join_byWorker (workerChunk s) (workerChunk_fst s) p i
      (List.range s.workerCount) (List.nodup_range _)]
  simp [List.mem_range]

lemma chunk_transform_count {C : Type} (s : PoolState C) (i : ℕ) :
    ((workerChunk s i).filter (fun m => m.1 == i && m.2.isTransform)).length ≤ 1 := by
  unfold workerChunk
  rw [List.filter_append, List.filter_append]
  have hskin : ((s.pendingSkinByWorker.getD i []).map
      (fun r => (i, PoolMessage.skinBatch r.meshIds r.boneMatrices r.lightConfig))).filter
        (fun m => m.1 == i && m.2.isTransform) = [] := by
    rw [List.filter_eq_nil]
    intro a ha
    obtain ⟨r, _, hr⟩ := List.mem_map.mp ha
    rw [← hr]
    simp [PoolMessage.isTransform]
  have hlight : ((s.pendingLightingByWorker.getD i []).map
      (fun r => (i, PoolMessage.lightingBatch r.meshIds r.lightConfig))).filter
        (fun m => m.1 == i && m.2.isTransform) = [] := by
    rw [List.filter_eq_nil]
    intro a ha
    obtain ⟨r, _, hr⟩ := List.mem_map.mp ha
    rw [← hr]
    simp [PoolMessage.isTransform]
  rw [hskin, hlight]
  simp only [List.append_nil]
  split
  · simp [List.filter_cons, PoolMessage.isTransform]
  · simp

lemma chunk_skin_count {C : Type} (s : PoolState C) (i : ℕ) :
    ((workerChunk s i).filter (fun m => m.1 == i && m.2.isSkin)).length =
      (s.pendingSkinByWorker.getD i []).length := by
  unfold workerChunk
  rw [List.filter_append, List.filter_append]
  have htr : ((if (s.pendingByWorker.getD i []) ≠ [] then
      [(i, PoolMessage.transformBatch (s.pendingByWorker.getD i []))] else []) :
        List (ℕ × PoolMessage C)).filter
        (fun m => m.1 == i && m.2.isSkin) = [] := by
    split
    · simp [List.filter_cons, PoolMessage.isSkin]
    · rfl
  have hlight : ((s.pendingLightingByWorker.getD i []).map
      (fun r => (i, PoolMessage.lightingBatch r.meshIds r.lightConfig))).filter
        (fun m => m.1 == i && m.2.isSkin) = [] := by
    rw [List.filter_eq_nil]
    intro a ha
    obtain ⟨r, _, hr⟩ := List.mem_map.mp ha
    rw [← hr]
    simp [PoolMessage.isSkin]
  have hskin : ((s.pendingSkinByWorker.getD i []).map
      (fun r => (i, PoolMessage.skinBatch r.meshIds r.boneMatrices r.lightConfig))).filter
        (fun m => m.1 == i && m.2.isSkin) =
      (s.pendingSkinByWorker.getD i []).map
        (fun r => (i, PoolMessage.skinBatch r.meshIds r.boneMatrices r.lightConfig)) := by
    rw [List.filter_eq_self]
    intro a ha
    obtain ⟨r, _, hr⟩ := List.mem_map.mp ha
    rw [← hr]
    simp [PoolMessage.isSkin]
  rw [htr, hlight, hskin]
  simp

lemma chunk_lighting_count {C : Type} (s : PoolState C) (i : ℕ) :
    ((workerChunk s i).filter (fun m => m.1 == i && m.2.isLighting)).length =
      (s.pendingLightingByWorker.getD i []).length := by
  unfold workerChunk
  rw [List.filter_append, List.filter_append]
  have htr : ((if (s.pendingByWorker.getD i []) ≠ [] then
      [(i, PoolMessage.transformBatch (s.pendingByWorker.getD i []))] else []) :
        List (ℕ × PoolMessage C)).filter
        (fun m => m.1 == i && m.2.isLighting) = [] := by
    split
    · simp [List.filter_cons, PoolMessage.isLighting]
    · rfl
  have hskin : ((s.pendingSkinByWorker.getD i []).map
      (fun r => (i, PoolMessage.skinBatch r.meshIds r.boneMatrices r.lightConfig))).filter
        (fun m => m.1 == i && m.2.isLighting) = [] := by
    rw [List.filter_eq_nil]
    intro a ha
    obtain ⟨r, _, hr⟩ := List.mem_map.mp ha
    rw [← hr]
    simp [PoolMessage.isLighting]
  have hlight : ((s.pendingLightingByWorker.getD i []).map
      (fun r => (i, PoolMessage.lightingBatch r.meshIds r.lightConfig))).filter
        (fun m => m.1 == i && m.2.isLighting) =
      (s.pendingLightingByWorker.getD i []).map
        (fun r => (i, PoolMessage.lightingBatch r.meshIds r.lightConfig)) := by
    rw [List.filter_eq_self]
    intro a ha
    obtain ⟨r, _, hr⟩ := List.mem_map.mp ha
    rw [← hr]
    simp [PoolMessage.isLighting]
  rw [htr, hskin, hlight]
  simp

/-- Pool with one worker and one registered skinned mesh (id 1), used to
exhibit two skin-batch messages in one flush. -/
def c3state : PoolState Unit :=
  ⟨1, false, [], [(1, ⟨0, true⟩)], [], [[]], [[]], [[]], 0, 0, []⟩

end GltfSpec

/-- **C3 counterexample.** The claim says a flush posts *at most one*
batched message per worker per request kind.  After two `queueSkinning`
calls for the same registered mesh (e.g. two different bone-matrix sets),
`flush` posts **two** `SKIN_BATCH` messages to worker 0 — the code comment
itself says "one message per request to allow different bone matrices". -/
theorem c3_counterexample_two_skin_messages_one_worker :
    (((GltfSpec.flush (GltfSpec.queueSkinning
          (GltfSpec.queueSkinning GltfSpec.c3state [1] [] none) [1] [] none)).2).filter
      (fun m => m.1 == 0 && m.2.isSkin)).length = 2 := by
  rfl

/-- **C3 (amended).** A flush posts at most one `TRANSFORM_BATCH` message
per worker, but one `SKIN_BATCH` message per queued skinning request and
one `LIGHTING_BATCH` message per queued static-lighting request (so
possibly several per worker and kind); it then arms `pendingResponses`
with the total number of messages posted and completes only after that
many responses (one per message) have arrived. -/
theorem c3_amended_one_transform_per_worker_one_message_per_request
    (C : Type) (s : GltfSpec.PoolState C) (hd : s.disposed = false) :
    (∀ i : ℕ, (((GltfSpec.flush s).2).filter
        (fun m => m.1 == i && m.2.isTransform)).length ≤ 1) ∧
    (∀ i : ℕ, i < s.workerCount → (((GltfSpec.flush s).2).filter
        (fun m => m.1 == i && m.2.isSkin)).length =
      (s.pendingSkinByWorker.getD i []).length) ∧
    (∀ i : ℕ, i < s.workerCount → (((GltfSpec.flush s).2).filter
        (fun m => m.1 == i && m.2.isLighting)).length =
      (s.pendingLightingByWorker.getD i []).length) ∧
    ((GltfSpec.flush s).2 ≠ [] →
      (GltfSpec.flush s).1.pendingResponses = ((GltfSpec.flush s).2.length : ℤ)) := by
  refine ⟨?_, ?_, ?_, ?_⟩
  · intro i
    rw [GltfSpec.flush_snd_eq s hd, GltfSpec.filter_flushMessages]
    split
    · exact GltfSpec.chunk_transform_count s i
    · simp
  · intro i hi
    rw [GltfSpec.flush_snd_eq s hd, GltfSpec.filter_flushMessages, if_pos hi]
    exact GltfSpec.chunk_skin_count s i
  · intro i hi
    rw [GltfSpec.flush_snd_eq s hd, GltfSpec.filter_flushMessages, if_pos hi]
    exact GltfSpec.chunk_lighting_count s i
  · intro hne
    rw [GltfSpec.flush_snd_eq s hd] at hne
    have hlen : ¬ (GltfSpec.flushMessages s).length = 0 := by
      simpa [List.length_eq_zero] using hne
    unfold GltfSpec.flush
    rw [if_neg (by simp [hd])]
    dsimp only
    rw [if_neg hlen]

/-- Witness for the amended C3, at the pool state of the counterexample
(with its two queued skin requests). -/
theorem c3_amended_one_transform_per_worker_one_message_per_request_witness :
    ((GltfSpec.queueSkinning (GltfSpec.queueSkinning GltfSpec.c3state [1] [] none)
        [1] [] none).disposed = false) ∧
    (∀ i : ℕ, (((GltfSpec.flush (GltfSpec.queueSkinning
          (GltfSpec.queueSkinning GltfSpec.c3state [1] [] none) [1] [] none)).2).filter
        (fun m => m.1 == i && m.2.isTransform)).length ≤ 1) := by
  refine ⟨rfl, ?_⟩
  exact (c3_amended_one_transform_per_worker_one_message_per_request Unit
    (GltfSpec.queueSkinning (GltfSpec.queueSkinning GltfSpec.c3state [1] [] none)
      [1] [] none) rfl).1

namespace GltfSpec

lemma checkFlushComplete_ne {C : Type} (s : PoolState C)
    (h : s.pendingResponses - 1 ≠ 0) :
    checkFlushComplete s = ({ s with pendingResponses := s.pendingResponses - 1 }, []) := by
  simp [checkFlushComplete, h]

lemma checkFlushComplete_zero {C : Type} (s : PoolState C)
    (h : s.pendingResponses - 1 = 0) :
    checkFlushComplete s =
      ({ s with pendingResponses := s.pendingResponses - 1, pendingResults := [],
                flushResolvers := 0 }, invokeAllResults s) := by
  have h0 : ∀ (x : ℤ), invokeAllResults { s with pendingResponses := x } =
      invokeAllResults s := fun _ => rfl
  simp [checkFlushComplete, h, h0]

lemma handleMessage_valid {C : Type} (s : PoolState C) (m : WorkerResponseMsg)
    (hv : m.valid = true) :
    handleMessage s m =
      checkFlushComplete
        { s with pendingResults := s.pendingResults ++ [responseToResult m] } := by
  simp [handleMessage, hv]

lemma processResponses_acc {C : Type} :
    ∀ (msgs : List WorkerResponseMsg) (s : PoolState C) (a : List Invocation),
      msgs.foldl (fun acc m =>
          let r := handleMessage acc.1 m
          (r.1, acc.2 ++ r.2)) (s, a) =
        ((processResponses s msgs).1, a ++ (processResponses s msgs).2) := by
  intro msgs
  induction msgs with
  | nil => intro s a; simp [processResponses]
  | cons m ms ih =>
      intro s a
      rw [List.foldl_cons]
      rw [ih (handleMessage s m).1 (a ++ (handleMessage s m).2)]
      have hc : processResponses s (m :: ms) =
          ((processResponses (handleMessage s m).1 ms).1,
           ([] ++ (handleMessage s m).2) ++ (processResponses (handleMessage s m).1 ms).2) := by
        unfold processResponses
        rw [List.foldl_cons]
        exact ih (handleMessage s m).1 ([] ++ (handleMessage s m).2)
      rw [hc]
      simp

lemma processResponses_cons {C : Type} (s : PoolState C) (m : WorkerResponseMsg)
    (ms : List WorkerResponseMsg) :
    processResponses s (m :: ms) =
      ((processResponses (handleMessage s m).1 ms).1,
       (handleMessage s m).2 ++ (processResponses (handleMessage s m).1 ms).2) := by
  unfold processResponses
  rw [List.foldl_cons]
  have := processResponses_acc ms (handleMessage s m).1 ([] ++ (handleMessage s m).2)
  rw [this]
  simp [processResponses]

lemma processResponses_partial {C : Type} :
    ∀ (msgs : List WorkerResponseMsg) (s : PoolState C),
      (∀ m ∈ msgs, m.valid = true) →
      ((msgs.length : ℤ) < s.pendingResponses) →
      (processResponses s msgs).2 = [] ∧
      (processResponses s msgs).1.pendingResponses =
        s.pendingResponses - msgs.length ∧
      (processResponses s msgs).1.pendingResults =
        s.pendingResults ++ msgs.map responseToResult ∧
      (processResponses s msgs).1.meshRegistry = s.meshRegistry ∧
      (processResponses s msgs).1.skinnedMeshRegistry = s.skinnedMeshRegistry ∧
      (processResponses s msgs).1.staticLightingRegistry = s.staticLightingRegistry ∧
      (processResponses s msgs).1.flushResolvers = s.flushResolvers := by
  intro msgs
  induction msgs with
  | nil =>
      intro s _ _
      refine ⟨rfl, by simp [processResponses], by simp [processResponses], rfl, rfl, rfl, rfl⟩
  | cons m ms ih =>
      intro s hv hlt
      have hm := hv m (List.mem_cons_self _ _)
      have hlt' : (ms.length : ℤ) + 1 < s.pendingResponses := by
        have : ((m :: ms).length : ℤ) = (ms.length : ℤ) + 1 := by simp
        rw [this] at hlt
        exact hlt
      have hne : ({ s with pendingResults := s.pendingResults ++ [responseToResult m] } :
          PoolState C).pendingResponses - 1 ≠ 0 := by
        show s.pendingResponses - 1 ≠ 0
        omega
      rw [processResponses_cons, handleMessage_valid s m hm, checkFlushComplete_ne _ hne]
      have hrec := ih { s with
          pendingResults := s.pendingResults ++ [responseToResult m]
          pendingResponses := s.pendingResponses - 1 }
        (fun x hx => hv x (List.mem_cons_of_mem _ hx))
        (by show (ms.length : ℤ) < s.pendingResponses - 1; omega)
      obtain ⟨h2, hresp, hres, hr1, hr2, hr3, hr4⟩ := hrec
      refine ⟨by simpa using h2, ?_, ?_, by simpa using hr1, by simpa using hr2,
        by simpa using hr3, by simpa using hr4⟩
      · simp only at hresp ⊢
        rw [hresp]
        simp only [List.length_cons]
        push_cast
        ring
      · simp only at hres ⊢
        rw [hres]
        simp

end GltfSpec

namespace GltfSpec

lemma processResponses_full {C : Type} :
    ∀ (msgs : List WorkerResponseMsg) (s : PoolState C),
      (∀ m ∈ msgs, m.valid = true) → 0 < msgs.length →
      s.pendingResponses = (msgs.length : ℤ) →
      (processResponses s msgs).2 =
        ((s.pendingResults ++ msgs.map responseToResult).map
          (invokeResult s.meshRegistry s.skinnedMeshRegistry
            s.staticLightingRegistry)).join ∧
      (processResponses s msgs).1.pendingResults = [] ∧
      (processResponses s msgs).1.pendingResponses = 0 ∧
      (processResponses s msgs).1.flushResolvers = 0 := by
  intro msgs
  induction msgs with
  | nil =>
      intro s _ h0 _
      exact absurd h0 (by simp)
  | cons m ms ih =>
      intro s hv _ hresp
      have hm := hv m (List.mem_cons_self _ _)
      by_cases hms : ms = []
      · subst hms
        have hz : ({ s with pendingResults := s.pendingResults ++ [responseToResult m] } :
            PoolState C).pendingResponses - 1 = 0 := by
          show s.pendingResponses - 1 = 0
          rw [hresp]
          simp
        rw [processResponses_cons, handleMessage_valid s m hm, checkFlushComplete_zero _ hz]
        refine ⟨?_, by simp [processResponses], ?_, by simp [processResponses]⟩
        · simp [processResponses, invokeAllResults]
        · simp only [processResponses, List.foldl_nil]
          show s.pendingResponses - 1 = 0
          rw [hresp]
          simp
      · have hlenpos : 0 < ms.length := List.length_pos.mpr hms
        have hne : ({ s with pendingResults := s.pendingResults ++ [responseToResult m] } :
            PoolState C).pendingResponses - 1 ≠ 0 := by
          show s.pendingResponses - 1 ≠ 0
          rw [hresp]
          simp only [List.length_cons]
          push_cast
          omega
        rw [processResponses_cons, handleMessage_valid s m hm, checkFlushComplete_ne _ hne]
        have hrec := ih { s with
            pendingResults := s.pendingResults ++ [responseToResult m]
            pendingResponses := s.pendingResponses - 1 }
          (fun x hx => hv x (List.mem_cons_of_mem _ hx)) hlenpos
          (by
            show s.pendingResponses - 1 = (ms.length : ℤ)
            rw [hresp]
            simp only [List.length_cons]
            push_cast
            ring)
        obtain ⟨ha, hb, hc, hd⟩ := hrec
        refine ⟨?_, by simpa using hb, by simpa using hc, by simpa using hd⟩
        simp only at ha ⊢
        rw [ha]
        simp

end GltfSpec

/-- **C5.** Within one flush, no per-mesh result callback runs before every
outstanding worker response has arrived: processing any strict prefix of
the expected responses performs no invocation, and processing the last
response invokes, in one batch, the callbacks for all collected results
(those queued before plus one per response), leaving the collected-result
list empty. -/
theorem c5_callbacks_only_after_all_responses
    (C : Type) (s : GltfSpec.PoolState C) (msgs : List GltfSpec.WorkerResponseMsg)
    (hresp : s.pendingResponses = (msgs.length : ℤ)) (hpos : 0 < msgs.length)
    (hv : ∀ m ∈ msgs, m.valid = true) :
    (∀ k, k < msgs.length → (GltfSpec.processResponses s (msgs.take k)).2 = []) ∧
    (GltfSpec.processResponses s msgs).2 =
      ((s.pendingResults ++ msgs.map GltfSpec.responseToResult).map
        (GltfSpec.invokeResult s.meshRegistry s.skinnedMeshRegistry
          s.staticLightingRegistry)).join ∧
    (GltfSpec.processResponses s msgs).1.pendingResults = [] := by
  refine ⟨?_, ?_, ?_⟩
  · intro k hk
    have hlen : (msgs.take k).length = k := by
      rw [List.length_take]
      omega
    have := GltfSpec.processResponses_partial (msgs.take k) s
      (fun x hx => hv x (List.take_subset k msgs hx))
      (by rw [hlen, hresp]; exact_mod_cast hk)
    exact this.1
  · exact (GltfSpec.processResponses_full msgs s hv hpos hresp).1
  · exact (GltfSpec.processResponses_full msgs s hv hpos hresp).2.1

/-- Witness for C5: one worker response outstanding, one valid
`TRANSFORM_RESULTS` message. -/
theorem c5_callbacks_only_after_all_responses_witness :
    ((GltfSpec.PoolState.mk 1 false [] [] [] [[]] [[]] [[]] 1 1 [] :
        GltfSpec.PoolState Unit).pendingResponses =
      (([⟨"TRANSFORM_RESULTS", some [], some [0], some [], none, none⟩] :
          List GltfSpec.WorkerResponseMsg).length : ℤ) ∧
     (0 : ℕ) < 1 ∧
     (∀ m ∈ ([⟨"TRANSFORM_RESULTS", some [], some [0], some [], none, none⟩] :
         List GltfSpec.WorkerResponseMsg), m.valid = true)) ∧
    (GltfSpec.processResponses
        (GltfSpec.PoolState.mk 1 false [] [] [] [[]] [[]] [[]] 1 1 [] :
          GltfSpec.PoolState Unit)
        [⟨"TRANSFORM_RESULTS", some [], some [0], some [], none, none⟩]).1.pendingResults
      = [] := by
  refine ⟨⟨by decide, by decide, by decide⟩, ?_⟩
  exact (c5_callbacks_only_after_all_responses Unit
    (GltfSpec.PoolState.mk 1 false [] [] [] [[]] [[]] [[]] 1 1 [])
    [⟨"TRANSFORM_RESULTS", some [], some [0], some [], none, none⟩]
    (by decide) (by decide) (by decide)).2.2

namespace GltfSpec

/-! ## Lighting (part_009 `calculateMeshLighting`, WORKER_CODE
`calculateLighting`)

`Math.sqrt`, `Math.cos` and `Math.pow` force this part of the embedding
into `ℝ` (idealised real arithmetic; numeric literals such as `0.0001`
denote the corresponding rationals).  The per-vertex loop bodies of the
two routines are modelled as per-vertex functions; the sub-computations
that are textually identical in the two sources (matrix extraction,
normal/position transform, view vector, hemisphere blend, directional
light loop body, spot cone/distance attenuation) are shared definitions,
while the spot-light contribution — whose specular debug branch is the
one textual difference (`b += 1.0` in the worker, `b -= 1.0` on the main
thread) — is defined once per source.  Accumulation of `r`, `g`, `b` over
lights is modelled as a vector sum, which over `ℝ` equals the source's
sequential accumulation. -/

noncomputable section

/-- A 3-vector of reals (a triple of JavaScript numbers). -/
structure V3 where
  x : ℝ
  y : ℝ
  z : ℝ

/-- An RGBA output colour. -/
structure RGBA where
  r : ℝ
  g : ℝ
  b : ℝ
  a : ℝ

/-- One directional light of a lighting snapshot (no id). -/
structure DirLight where
  enabled : Bool
  color : V3
  intensity : ℝ
  direction : V3
  specularEnabled : Bool

/-- One spot light of a lighting snapshot. -/
structure SpotL where
  enabled : Bool
  color : V3
  intensity : ℝ
  position : V3
  direction : V3
  innerConeAngle : ℝ
  outerConeAngle : ℝ
  falloffExponent : ℝ
  range : ℝ
  specularEnabled : Bool

/-- Hemisphere light. -/
structure HemiLight where
  enabled : Bool
  skyColor : V3
  groundColor : V3
  intensity : ℝ

/-- Specular configuration; an absent `debugBlue` is `false`. -/
structure SpecularCfg where
  shininess : ℝ
  intensity : ℝ
  debugBlue : Bool

def V3.add (u v : V3) : V3 := ⟨u.x + v.x, u.y + v.y, u.z + v.z⟩

def V3.zero : V3 := ⟨0, 0, 0⟩

def sumV3 (l : List V3) : V3 := l.foldl V3.add V3.zero

/-- The matrix components every vertex loop extracts (identity when no
16-element matrix is supplied). -/
structure MatParts where
  m00 : ℝ
  m01 : ℝ
  m02 : ℝ
  m10 : ℝ
  m11 : ℝ
  m12 : ℝ
  m20 : ℝ
  m21 : ℝ
  m22 : ℝ
  tx : ℝ
  ty : ℝ
  tz : ℝ

/-- `hasMatrix = modelMatrix && modelMatrix.length >= 16`. -/
def hasMatrixOf (modelMatrix : Option (List ℝ)) : Bool :=
  match modelMatrix with
  | some mm => decide (16 ≤ mm.length)
  | none => false

/-- Column-major extraction (identical in both sources). -/
def matParts (modelMatrix : Option (List ℝ)) : MatParts :=
  match modelMatrix with
  | some mm =>
      if 16 ≤ mm.length then
        ⟨mm.getD 0 0, mm.getD 4 0, mm.getD 8 0,
         mm.getD 1 0, mm.getD 5 0, mm.getD 9 0,
         mm.getD 2 0, mm.getD 6 0, mm.getD 10 0,
         mm.getD 12 0, mm.getD 13 0, mm.getD 14 0⟩
      else ⟨1, 0, 0, 0, 1, 0, 0, 0, 1, 0, 0, 0⟩
  | none => ⟨1, 0, 0, 0, 1, 0, 0, 0, 1, 0, 0, 0⟩

/-- Transform and renormalise the vertex normal (kept unchanged when the
transformed length is ≤ 1e-4, as in both sources). -/
noncomputable def normalToWorld (p : MatParts) (hasMatrix : Bool) (n : V3) : V3 :=
  if hasMatrix then
    let wnx := p.m00 * n.x + p.m01 * n.y + p.m02 * n.z
    let wny := p.m10 * n.x + p.m11 * n.y + p.m12 * n.z
    let wnz := p.m20 * n.x + p.m21 * n.y + p.m22 * n.z
    let len := Real.sqrt (wnx * wnx + wny * wny + wnz * wnz)
    if 1 / 10000 < len then ⟨wnx / len, wny / len, wnz / len⟩ else n
  else n

/-- Transform the vertex position to world space. -/
def worldPos (p : MatParts) (hasMatrix : Bool) (pos : V3) : V3 :=
  if hasMatrix then
    ⟨p.m00 * pos.x + p.m01 * pos.y + p.m02 * pos.z + p.tx,
     p.m10 * pos.x + p.m11 * pos.y + p.m12 * pos.z + p.ty,
     p.m20 * pos.x + p.m21 * pos.y + p.m22 * pos.z + p.tz⟩
  else pos

/-- View direction from the vertex to the camera ((0,0,0) when the
distance is ≤ 1e-4). -/
noncomputable def viewDir (camera p : V3) : V3 :=
  let vx := camera.x - p.x
  let vy := camera.y - p.y
  let vz := camera.z - p.z
  let vLen := Real.sqrt (vx * vx + vy * vy + vz * vz)
  if 1 / 10000 < vLen then ⟨vx / vLen, vy / vLen, vz / vLen⟩ else ⟨0, 0, 0⟩

/-- Hemisphere blend by `(normal.z + 1) / 2` (identical in both sources). -/
def hemiContrib (h : HemiLight) (n : V3) : V3 :=
  let blend := (n.z + 1) * (1 / 2)
  let invBlend := 1 - blend
  ⟨(h.groundColor.x * invBlend + h.skyColor.x * blend) * h.intensity,
   (h.groundColor.y * invBlend + h.skyColor.y * blend) * h.intensity,
   (h.groundColor.z * invBlend + h.skyColor.z * blend) * h.intensity⟩

/-- One directional light's contribution (identical in both sources,
including the `b += 1.0` specular debug branch). -/
noncomputable def dirLightContrib (spec : SpecularCfg) (canDoSpecular : Bool)
    (n view : V3) (light : DirLight) : V3 :=
  if ¬light.enabled then V3.zero
  else
    let L := light.direction
    let NdotL := n.x * L.x + n.y * L.y + n.z * L.z
    if ¬(0 < NdotL) then V3.zero
    else
      let contrib := NdotL * light.intensity
      let base : V3 := ⟨light.color.x * contrib, light.color.y * contrib,
        light.color.z * contrib⟩
      if canDoSpecular && light.specularEnabled then
        let hx := L.x + view.x
        let hy := L.y + view.y
        let hz := L.z + view.z
        let hLen := Real.sqrt (hx * hx + hy * hy + hz * hz)
        if 1 / 10000 < hLen then
          let NdotH := n.x * (hx / hLen) + n.y * (hy / hLen) + n.z * (hz / hLen)
          if spec.debugBlue then
            if 1 / 100 < |NdotH| then base.add ⟨0, 0, 1⟩ else base
          else
            let sp := (max 0 NdotH) ^ spec.shininess * spec.intensity * light.intensity
            base.add ⟨light.color.x * sp, light.color.y * sp, light.color.z * sp⟩
        else base
      else base

/-- The normalised light-to-vertex direction of a spot light. -/
noncomputable def spotToVert (spot : SpotL) (p : V3) : V3 :=
  let dx := p.x - spot.position.x
  let dy := p.y - spot.position.y
  let dz := p.z - spot.position.z
  let invDist := 1 / Real.sqrt (dx * dx + dy * dy + dz * dz)
  ⟨dx * invDist, dy * invDist, dz * invDist⟩

/-- The cosine between the cone axis and the light-to-vertex direction. -/
noncomputable def spotCosAngle (spot : SpotL) (p : V3) : ℝ :=
  spot.direction.x * (spotToVert spot p).x + spot.direction.y * (spotToVert spot p).y +
    spot.direction.z * (spotToVert spot p).z

/-- Angular attenuation: 1 inside the inner cone, the penumbra power curve
otherwise (callers skip the region at/outside the outer cone first). -/
noncomputable def spotAngularAtten (innerCos outerCos falloffExponent cosAngle : ℝ) : ℝ :=
  if innerCos ≤ cosAngle then 1
  else ((cosAngle - outerCos) / (innerCos - outerCos)) ^ falloffExponent

/-- Diffuse+specular of one spot light as computed in the WORKER source
(`calculateLighting`, WORKER_CODE lines 202-290); the specular debug
branch adds `+1` to blue. -/
noncomputable def workerSpotContrib (spec : SpecularCfg) (canDoSpecular : Bool)
    (n p view : V3) (spot : SpotL) : V3 :=
  if ¬spot.enabled then V3.zero
  else
    let dx := p.x - spot.position.x
    let dy := p.y - spot.position.y
    let dz := p.z - spot.position.z
    let distSq := dx * dx + dy * dy + dz * dz
    let dist := Real.sqrt distSq
    if dist < 1 / 10000 then V3.zero
    else
      let toVert := spotToVert spot p
      let cosAngle := spotCosAngle spot p
      let innerCos := Real.cos spot.innerConeAngle
      let outerCos := Real.cos spot.outerConeAngle
      if cosAngle ≤ outerCos then V3.zero
      else
        let angularAtten := spotAngularAtten innerCos outerCos spot.falloffExponent cosAngle
        if 0 < spot.range ∧ spot.range ≤ dist then V3.zero
        else
          let distAtten := if 0 < spot.range then
              (1 - (dist / spot.range) * (dist / spot.range)) *
                (1 - (dist / spot.range) * (dist / spot.range))
            else 1 / (1 + distSq)
          let L : V3 := ⟨-toVert.x, -toVert.y, -toVert.z⟩
          let NdotL := n.x * L.x + n.y * L.y + n.z * L.z
          if ¬(0 < NdotL) then V3.zero
          else
            let contrib := NdotL * spot.intensity * angularAtten * distAtten
            let base : V3 := ⟨spot.color.x * contrib, spot.color.y * contrib,
              spot.color.z * contrib⟩
            if canDoSpecular && spot.specularEnabled then
              let hx := L.x + view.x
              let hy := L.y + view.y
              let hz := L.z + view.z
              let hLen := Real.sqrt (hx * hx + hy * hy + hz * hz)
              if 1 / 10000 < hLen then
                let NdotH := n.x * (hx / hLen) + n.y * (hy / hLen) + n.z * (hz / hLen)
                if spec.debugBlue then
                  if 1 / 100 < |NdotH| then base.add ⟨0, 0, 1⟩ else base
                else
                  let sp := (max 0 NdotH) ^ spec.shininess * spec.intensity *
                    spot.intensity * angularAtten * distAtten
                  base.add ⟨spot.color.x * sp, spot.color.y * sp, spot.color.z * sp⟩
              else base
            else base

/-- Diffuse+specular of one spot light as computed in the MAIN-THREAD
source (`calculateMeshLighting`, part_009 lines 871-969); identical to the
worker's except for its specular debug branch, which executes `b -= 1.0`. -/
noncomputable def mainSpotContrib (spec : SpecularCfg) (canDoSpecular : Bool)
    (n p view : V3) (spot : SpotL) : V3 :=
  if ¬spot.enabled then V3.zero
  else
    let dx := p.x - spot.position.x
    let dy := p.y - spot.position.y
    let dz := p.z - spot.position.z
    let distSq := dx * dx + dy * dy + dz * dz
    let dist := Real.sqrt distSq
    if dist < 1 / 10000 then V3.zero
    else
      let toVert := spotToVert spot p
      let cosAngle := spotCosAngle spot p
      let innerCos := Real.cos spot.innerConeAngle
      let outerCos := Real.cos spot.outerConeAngle
      if cosAngle ≤ outerCos then V3.zero
      else
        let angularAtten := spotAngularAtten innerCos outerCos spot.falloffExponent cosAngle
        if 0 < spot.range ∧ spot.range ≤ dist then V3.zero
        else
          let distAtten := if 0 < spot.range then
              (1 - (dist / spot.range) * (dist / spot.range)) *
                (1 - (dist / spot.range) * (dist / spot.range))
            else 1 / (1 + distSq)
          let L : V3 := ⟨-toVert.x, -toVert.y, -toVert.z⟩
          let NdotL := n.x * L.x + n.y * L.y + n.z * L.z
          if ¬(0 < NdotL) then V3.zero
          else
            let contrib := NdotL * spot.intensity * angularAtten * distAtten
            let base : V3 := ⟨spot.color.x * contrib, spot.color.y * contrib,
              spot.color.z * contrib⟩
            if canDoSpecular && spot.specularEnabled then
              let hx := L.x + view.x
              let hy := L.y + view.y
              let hz := L.z + view.z
              let hLen := Real.sqrt (hx * hx + hy * hy + hz * hz)
              if 1 / 10000 < hLen then
                let NdotH := n.x * (hx / hLen) + n.y * (hy / hLen) + n.z * (hz / hLen)
                if spec.debugBlue then
                  if 1 / 100 < |NdotH| then base.add ⟨0, 0, -1⟩ else base
                else
                  let sp := (max 0 NdotH) ^ spec.shininess * spec.intensity *
                    spot.intensity * angularAtten * distAtten
                  base.add ⟨spot.color.x * sp, spot.color.y * sp, spot.color.z * sp⟩
              else base
            else base

/-- `WorkerLightConfig` as received by the worker. -/
structure WorkerLightCfg where
  ambient : V3
  lights : List DirLight
  spotLights : List SpotL
  hemisphere : Option HemiLight
  specular : Option SpecularCfg
  cameraPosition : Option V3
  modelMatrix : Option (List ℝ)

/-- Clamp a channel to the intentional overbright ceiling of 2. -/
def clamp2 (x : ℝ) : ℝ := if 2 < x then 2 else x

/-- Per-vertex body of the WORKER-side `calculateLighting` (WORKER_CODE
lines 51-298). -/
noncomputable def calculateLightingVertex (cfg : WorkerLightCfg)
    (position : Option V3) (normal : V3) : RGBA :=
  let parts := matParts cfg.modelMatrix
  let hasMatrix := hasMatrixOf cfg.modelMatrix
  let hasSpotLights := !cfg.spotLights.isEmpty && position.isSome
  let canDoSpecular := cfg.cameraPosition.isSome && position.isSome &&
    (match cfg.specular with
     | some sp => decide (0 < sp.intensity)
     | none => false)
  let n := normalToWorld parts hasMatrix normal
  let hemi := match cfg.hemisphere with
    | some h => if h.enabled then hemiContrib h n else V3.zero
    | none => V3.zero
  let needsWorldPos := hasSpotLights || canDoSpecular
  let p := if needsWorldPos then
      match position with
      | some pos => worldPos parts hasMatrix pos
      | none => V3.zero
    else V3.zero
  let view := if canDoSpecular then
      match cfg.cameraPosition with
      | some cam => viewDir cam p
      | none => V3.zero
    else V3.zero
  let spec := cfg.specular.getD ⟨0, 0, false⟩
  let dirC := sumV3 (cfg.lights.map (dirLightContrib spec canDoSpecular n view))
  let spotC := if hasSpotLights then
      sumV3 (cfg.spotLights.map (workerSpotContrib spec canDoSpecular n p view))
    else V3.zero
  let r := cfg.ambient.x + hemi.x + dirC.x + spotC.x
  let g := cfg.ambient.y + hemi.y + dirC.y + spotC.y
  let b := cfg.ambient.z + hemi.z + dirC.z + spotC.z
  ⟨clamp2 r, clamp2 g, clamp2 b, 1⟩

/-- Per-vertex body of the MAIN-THREAD `calculateMeshLighting` (part_009
lines 708-978); the globals it reads (`gltfAmbientLight`, `gltfLights`,
`gltfSpotLights`, `gltfHemisphereLight`, `gltfSpecular`) are parameters. -/
noncomputable def calculateMeshLightingVertex (ambient : V3) (lights : List DirLight)
    (spotLights : List SpotL) (hemisphere : HemiLight) (specular : SpecularCfg)
    (position : Option V3) (normal : V3) (modelMatrix : Option (List ℝ))
    (cameraPosition : Option V3) : RGBA :=
  let parts := matParts modelMatrix
  let hasMatrix := hasMatrixOf modelMatrix
  let hasSpotLights := !spotLights.isEmpty && position.isSome
  let canDoSpecular := cameraPosition.isSome && position.isSome &&
    decide (0 < specular.intensity)
  let n := normalToWorld parts hasMatrix normal
  let hemi := if hemisphere.enabled then hemiContrib hemisphere n else V3.zero
  let needsWorldPos := hasSpotLights || canDoSpecular
  let p := if needsWorldPos then
      match position with
      | some pos => worldPos parts hasMatrix pos
      | none => V3.zero
    else V3.zero
  let view := if canDoSpecular then
      match cameraPosition with
      | some cam => viewDir cam p
      | none => V3.zero
    else V3.zero
  let dirC := sumV3 (lights.map (dirLightContrib specular canDoSpecular n view))
  let spotC := if hasSpotLights then
      sumV3 (spotLights.map (mainSpotContrib specular canDoSpecular n p view))
    else V3.zero
  let r := ambient.x + hemi.x + dirC.x + spotC.x
  let g := ambient.y + hemi.y + dirC.y + spotC.y
  let b := ambient.z + hemi.z + dirC.z + spotC.z
  ⟨clamp2 r, clamp2 g, clamp2 b, 1⟩

end

end GltfSpec

namespace GltfSpec

/-- On `[outerCos, innerCos]` the attenuation is the penumbra power curve
(`1 = 1^e` at the inner boundary). -/
lemma spotAngularAtten_eq_rpow {innerCos outerCos e : ℝ} (hio : outerCos < innerCos)
    (c : ℝ) (h1 : outerCos ≤ c) (h2 : c ≤ innerCos) :
    spotAngularAtten innerCos outerCos e c =
      ((c - outerCos) / (innerCos - outerCos)) ^ e := by
  by_cases hc : innerCos ≤ c
  · have hceq : c = innerCos := le_antisymm h2 hc
    rw [spotAngularAtten, if_pos hc, hceq,
      div_self (by linarith : innerCos - outerCos ≠ 0), Real.one_rpow]
  · rw [spotAngularAtten, if_neg hc]

lemma spotContrib_zero_outside_main (spec : SpecularCfg) (canSpec : Bool)
    (n p view : V3) (spot : SpotL)
    (hcos : spotCosAngle spot p ≤ Real.cos spot.outerConeAngle) :
    mainSpotContrib spec canSpec n p view spot = V3.zero := by
  unfold mainSpotContrib
  by_cases h1 : ¬(spot.enabled = true)
  · rw [if_pos h1]
  · rw [if_neg h1]
    by_cases h2 : Real.sqrt ((p.x - spot.position.x) * (p.x - spot.position.x) +
        (p.y - spot.position.y) * (p.y - spot.position.y) +
        (p.z - spot.position.z) * (p.z - spot.position.z)) < 1 / 10000
    · simp only
      rw [if_pos h2]
    · simp only
      rw [if_neg h2, if_pos hcos]

lemma spotContrib_zero_outside_worker (spec : SpecularCfg) (canSpec : Bool)
    (n p view : V3) (spot : SpotL)
    (hcos : spotCosAngle spot p ≤ Real.cos spot.outerConeAngle) :
    workerSpotContrib spec canSpec n p view spot = V3.zero := by
  unfold workerSpotContrib
  by_cases h1 : ¬(spot.enabled = true)
  · rw [if_pos h1]
  · rw [if_neg h1]
    by_cases h2 : Real.sqrt ((p.x - spot.position.x) * (p.x - spot.position.x) +
        (p.y - spot.position.y) * (p.y - spot.position.y) +
        (p.z - spot.position.z) * (p.z - spot.position.z)) < 1 / 10000
    · simp only
      rw [if_pos h2]
    · simp only
      rw [if_neg h2, if_pos hcos]

end GltfSpec

/-- **C7.** Spot angular attenuation (identical in both lighting routines):
it is exactly 1 at and inside the inner cone boundary (`cosAngle ≥
innerCos`); in the penumbra it equals
`((cosAngle − outerCos)/(innerCos − outerCos))^falloffExponent` and is
strictly increasing in `cosAngle` — i.e. strictly decreasing toward the
outer boundary, where it reaches 0; and at or beyond the outer cone
boundary (`cosAngle ≤ outerCos`) the light's whole contribution is exactly
the zero vector, in both the main-thread and the worker routine. -/
theorem c7_spot_cone_attenuation (innerCos outerCos e : ℝ)
    (hio : outerCos < innerCos) (he : 0 < e) :
    (∀ c, innerCos ≤ c → GltfSpec.spotAngularAtten innerCos outerCos e c = 1) ∧
    (∀ c, outerCos < c → c < innerCos →
      GltfSpec.spotAngularAtten innerCos outerCos e c =
        ((c - outerCos) / (innerCos - outerCos)) ^ e) ∧
    (∀ c1 c2, outerCos ≤ c1 → c1 < c2 → c2 ≤ innerCos →
      GltfSpec.spotAngularAtten innerCos outerCos e c1 <
        GltfSpec.spotAngularAtten innerCos outerCos e c2) ∧
    GltfSpec.spotAngularAtten innerCos outerCos e outerCos = 0 ∧
    (∀ (spec : GltfSpec.SpecularCfg) (canSpec : Bool)
        (n p view : GltfSpec.V3) (spot : GltfSpec.SpotL),
      GltfSpec.spotCosAngle spot p ≤ Real.cos spot.outerConeAngle →
      GltfSpec.mainSpotContrib spec canSpec n p view spot = GltfSpec.V3.zero ∧
      GltfSpec.workerSpotContrib spec canSpec n p view spot = GltfSpec.V3.zero) := by
  refine ⟨?_, ?_, ?_, ?_, ?_⟩
  · intro c hc
    rw [GltfSpec.spotAngularAtten, if_pos hc]
  · intro c h1 h2
    rw [GltfSpec.spotAngularAtten, if_neg (not_le.mpr h2)]
  · intro c1 c2 h1 h12 h2
    rw [GltfSpec.spotAngularAtten_eq_rpow hio c1 h1 (by linarith),
        GltfSpec.spotAngularAtten_eq_rpow hio c2 (by linarith) h2]
    have hden : (0 : ℝ) < innerCos - outerCos := by linarith
    refine Real.rpow_lt_rpow (div_nonneg (by linarith) hden.le) ?_ he
    rw [div_lt_div_iff_of_pos_right hden]
    linarith
  · rw [GltfSpec.spotAngularAtten, if_neg (not_le.mpr hio)]
    rw [sub_self, zero_div, Real.zero_rpow (ne_of_gt he)]
  · intro spec canSpec n p view spot hcos
    exact ⟨GltfSpec.spotContrib_zero_outside_main spec canSpec n p view spot hcos,
      GltfSpec.spotContrib_zero_outside_worker spec canSpec n p view spot hcos⟩

/-- Witness for C7 at `innerCos = 1`, `outerCos = 0`, exponent 1: the
attenuation equals 1 at the inner boundary and 1/2 at `cosAngle = 1/2`. -/
theorem c7_spot_cone_attenuation_witness :
    ((0 : ℝ) < 1 ∧ (0 : ℝ) < 1) ∧
    GltfSpec.spotAngularAtten 1 0 1 1 = 1 ∧
    GltfSpec.spotAngularAtten 1 0 1 (1 / 2) = ((1 / 2 - 0) / (1 - 0) : ℝ) ^ (1 : ℝ) ∧
    GltfSpec.spotAngularAtten 1 0 1 0 = 0 := by
  refine ⟨⟨by norm_num, by norm_num⟩, ?_, ?_, ?_⟩
  · exact (c7_spot_cone_attenuation 1 0 1 (by norm_num) (by norm_num)).1 1 le_rfl
  · exact (c7_spot_cone_attenuation 1 0 1 (by norm_num) (by norm_num)).2.1 (1 / 2)
      (by norm_num) (by norm_num)
  · exact (c7_spot_cone_attenuation 1 0 1 (by norm_num) (by norm_num)).2.2.2.1

namespace GltfSpec

noncomputable section

/-! ## Global light registry (part_009 script interface)

`globalThis.gltfLights` / `gltfSpotLights` / `gltfLightIdCounter` /
`gltfLightingVersion` are gathered into one state record.  Light ids are
unique (the id counter only grows), so mutating the object returned by
`getLight(id)` is modelled as mapping over the list and updating the
entry with that id. -/

/-- `Math.sqrt(x*x + y*y + z*z)`. -/
def normLen (x y z : ℝ) : ℝ := Real.sqrt (x * x + y * y + z * z)

def V3.norm (v : V3) : ℝ := normLen v.x v.y v.z

/-- `DirectionalLight` as stored in the registry (part_009 lines 14-27). -/
structure RegDirLight where
  id : ℕ
  enabled : Bool
  color : V3
  intensity : ℝ
  direction : V3
  specularEnabled : Bool

/-- `SpotLight` as stored in the registry (part_009 lines 29-52). -/
structure RegSpotLight where
  id : ℕ
  enabled : Bool
  color : V3
  intensity : ℝ
  position : V3
  direction : V3
  innerConeAngle : ℝ
  outerConeAngle : ℝ
  falloffExponent : ℝ
  range : ℝ
  specularEnabled : Bool

/-- The global light state. -/
structure LightingState where
  lights : List RegDirLight
  spotLights : List RegSpotLight
  idCounter : ℕ
  version : ℕ

/-- The light object built by `createDirectionalLight` (part_009 lines
149-170): near-zero input directions fall back to (0, 1, 0). -/
def newDirectionalLight (id : ℕ) (dirX dirY dirZ : ℝ) : RegDirLight :=
  let len := normLen dirX dirY dirZ
  let nx := if 1 / 10000 < len then dirX / len else 0
  let ny := if 1 / 10000 < len then dirY / len else 1
  let nz := if 1 / 10000 < len then dirZ / len else 0
  ⟨id, true, ⟨1, 1, 1⟩, 1, ⟨nx, ny, nz⟩, true⟩

def createDirectionalLight (st : LightingState) (dirX dirY dirZ : ℝ) :
    LightingState × ℕ :=
  let id := st.idCounter
  (⟨st.lights ++ [newDirectionalLight id dirX dirY dirZ], st.spotLights,
    id + 1, st.version + 1⟩, id)

/-- Degrees-to-radians factor. -/
def degToRad : ℝ := Real.pi / 180

/-- The light object built by `createSpotLight` (part_009 lines 487-524):
near-zero input directions fall back to (0, −1, 0); the outer angle is
clamped up to the inner angle; the falloff exponent to ≥ 0.01; the range
to ≥ 0. -/
def newSpotLight (id : ℕ) (posX posY posZ dirX dirY dirZ : ℝ)
    (innerAngleDeg outerAngleDeg falloffExponent range : ℝ) : RegSpotLight :=
  let len := normLen dirX dirY dirZ
  let nx := if 1 / 10000 < len then dirX / len else 0
  let ny := if 1 / 10000 < len then dirY / len else -1
  let nz := if 1 / 10000 < len then dirZ / len else 0
  let outer := if outerAngleDeg < innerAngleDeg then innerAngleDeg else outerAngleDeg
  ⟨id, true, ⟨1, 1, 1⟩, 1, ⟨posX, posY, posZ⟩, ⟨nx, ny, nz⟩,
   innerAngleDeg * degToRad, outer * degToRad,
   max (1 / 100) falloffExponent, max 0 range, true⟩

def createSpotLight (st : LightingState) (posX posY posZ dirX dirY dirZ : ℝ)
    (innerAngleDeg outerAngleDeg falloffExponent range : ℝ) :
    LightingState × ℕ :=
  let id := st.idCounter
  (⟨st.lights, st.spotLights ++
      [newSpotLight id posX posY posZ dirX dirY dirZ
        innerAngleDeg outerAngleDeg falloffExponent range],
    id + 1, st.version + 1⟩, id)

/-- `setLightDirection` (part_009 lines 254-265): no light, or an input of
length ≤ 1e-4, leaves the whole state (direction and dirty version)
unchanged. -/
def setLightDirection (st : LightingState) (id : ℕ) (x y z : ℝ) : LightingState :=
  if (st.lights.find? (fun l => l.id == id)).isSome then
    if 1 / 10000 < normLen x y z then
      { st with
        lights := st.lights.map (fun l =>
          if l.id = id then
            { l with direction := ⟨x / normLen x y z, y / normLen x y z,
                z / normLen x y z⟩ }
          else l)
        version := st.version + 1 }
    else st
  else st

/-- `setSpotLightDirection` (part_009 lines 621-632). -/
def setSpotLightDirection (st : LightingState) (id : ℕ) (x y z : ℝ) :
    LightingState :=
  if (st.spotLights.find? (fun l => l.id == id)).isSome then
    if 1 / 10000 < normLen x y z then
      { st with
        spotLights := st.spotLights.map (fun l =>
          if l.id = id then
            { l with direction := ⟨x / normLen x y z, y / normLen x y z,
                z / normLen x y z⟩ }
          else l)
        version := st.version + 1 }
    else st
  else st

end

lemma normLen_nonneg (x y z : ℝ) : 0 ≤ normLen x y z := Real.sqrt_nonneg _

/-- A vector divided by its (positive) length has length 1. -/
lemma normLen_div_self {dx dy dz : ℝ} (h : 0 < normLen dx dy dz) :
    normLen (dx / normLen dx dy dz) (dy / normLen dx dy dz)
      (dz / normLen dx dy dz) = 1 := by
  set len := normLen dx dy dz with hlen
  have hsq : len * len = dx * dx + dy * dy + dz * dz := by
    rw [hlen, normLen]
    exact Real.mul_self_sqrt
      (add_nonneg (add_nonneg (mul_self_nonneg dx) (mul_self_nonneg dy))
        (mul_self_nonneg dz))
  have hexp : dx / len * (dx / len) + dy / len * (dy / len) + dz / len * (dz / len)
      = (dx * dx + dy * dy + dz * dz) / (len * len) := by
    field_simp
  rw [normLen, hexp, ← hsq,
    div_self (mul_ne_zero (ne_of_gt h) (ne_of_gt h)), Real.sqrt_one]

lemma normLen_up : normLen 0 1 0 = 1 := by
  rw [normLen]
  norm_num

lemma normLen_down : normLen 0 (-1) 0 = 1 := by
  rw [normLen]
  norm_num

/-- A freshly created directional light's stored direction is unit. -/
lemma newDirectionalLight_unit (j : ℕ) (dx dy dz : ℝ) :
    V3.norm (newDirectionalLight j dx dy dz).direction = 1 := by
  rw [newDirectionalLight]
  by_cases h : 1 / 10000 < normLen dx dy dz
  · simp only [if_pos h]
    exact normLen_div_self (lt_of_le_of_lt (by norm_num) h)
  · simp only [if_neg h]
    exact normLen_up

/-- A freshly created spot light's stored direction is unit. -/
lemma newSpotLight_unit (j : ℕ) (px py pz dx dy dz iDeg oDeg fo rg : ℝ) :
    V3.norm (newSpotLight j px py pz dx dy dz iDeg oDeg fo rg).direction = 1 := by
  rw [newSpotLight]
  by_cases h : 1 / 10000 < normLen dx dy dz
  · simp only [if_pos h]
    exact normLen_div_self (lt_of_le_of_lt (by norm_num) h)
  · simp only [if_neg h]
    exact normLen_down

end GltfSpec

/-- **C8.** For any direction input of Euclidean length ≤ 1e-4:
`createDirectionalLight` stores the canonical default (0, 1, 0),
`createSpotLight` stores (0, −1, 0), and `setLightDirection` /
`setSpotLightDirection` leave the whole state unchanged (no mutation, no
dirty bump).  Consequently every stored direction is a unit vector: both
creators always store a unit direction and the setters preserve that
invariant, and the division by the input length is performed only when
that length exceeds 1e-4. -/
theorem c8_near_zero_directions_defaulted
    (st : GltfSpec.LightingState) (id : ℕ) (x y z : ℝ)
    (h : GltfSpec.normLen x y z ≤ 1 / 10000) :
    (∀ j, (GltfSpec.newDirectionalLight j x y z).direction = ⟨0, 1, 0⟩) ∧
    (∀ j px py pz iDeg oDeg fo rg,
      (GltfSpec.newSpotLight j px py pz x y z iDeg oDeg fo rg).direction = ⟨0, -1, 0⟩) ∧
    GltfSpec.setLightDirection st id x y z = st ∧
    GltfSpec.setSpotLightDirection st id x y z = st ∧
    (∀ j dx dy dz, GltfSpec.V3.norm (GltfSpec.newDirectionalLight j dx dy dz).direction = 1) ∧
    (∀ j px py pz dx dy dz iDeg oDeg fo rg,
      GltfSpec.V3.norm
        (GltfSpec.newSpotLight j px py pz dx dy dz iDeg oDeg fo rg).direction = 1) ∧
    (∀ (st2 : GltfSpec.LightingState) (id2 : ℕ) (x2 y2 z2 : ℝ),
      (∀ l ∈ st2.lights, GltfSpec.V3.norm l.direction = 1) →
      ∀ l ∈ (GltfSpec.setLightDirection st2 id2 x2 y2 z2).lights,
        GltfSpec.V3.norm l.direction = 1) ∧
    (∀ (st2 : GltfSpec.LightingState) (id2 : ℕ) (x2 y2 z2 : ℝ),
      (∀ l ∈ st2.spotLights, GltfSpec.V3.norm l.direction = 1) →
      ∀ l ∈ (GltfSpec.setSpotLightDirection st2 id2 x2 y2 z2).spotLights,
        GltfSpec.V3.norm l.direction = 1) := by
  have hnot : ¬ (1 / 10000 < GltfSpec.normLen x y z) := not_lt.mpr h
  refine ⟨?_, ?_, ?_, ?_, GltfSpec.newDirectionalLight_unit,
    fun j px py pz dx dy dz iDeg oDeg fo rg =>
      GltfSpec.newSpotLight_unit j px py pz dx dy dz iDeg oDeg fo rg, ?_, ?_⟩
  · intro j
    rw [GltfSpec.newDirectionalLight]
    simp only [if_neg hnot]
  · intro j px py pz iDeg oDeg fo rg
    rw [GltfSpec.newSpotLight]
    simp only [if_neg hnot]
  · by_cases hf : (st.lights.find? (fun l => l.id == id)).isSome = true
    · rw [GltfSpec.setLightDirection, if_pos hf, if_neg hnot]
    · rw [GltfSpec.setLightDirection, if_neg hf]
  · by_cases hf : (st.spotLights.find? (fun l => l.id == id)).isSome = true
    · rw [GltfSpec.setSpotLightDirection, if_pos hf, if_neg hnot]
    · rw [GltfSpec.setSpotLightDirection, if_neg hf]
  · intro st2 id2 x2 y2 z2 hall l hl
    by_cases hf : (st2.lights.find? (fun l => l.id == id2)).isSome = true
    · by_cases hlen : 1 / 10000 < GltfSpec.normLen x2 y2 z2
      · rw [GltfSpec.setLightDirection, if_pos hf, if_pos hlen] at hl
        simp only [List.mem_map] at hl
        obtain ⟨l0, hl0, heq⟩ := hl
        by_cases hid : l0.id = id2
        · rw [if_pos hid] at heq
          rw [← heq]
          exact GltfSpec.normLen_div_self (lt_of_le_of_lt (by norm_num) hlen)
        · rw [if_neg hid] at heq
          rw [← heq]
          exact hall l0 hl0
      · rw [GltfSpec.setLightDirection, if_pos hf, if_neg hlen] at hl
        exact hall l hl
    · rw [GltfSpec.setLightDirection, if_neg hf] at hl
      exact hall l hl
  · intro st2 id2 x2 y2 z2 hall l hl
    by_cases hf : (st2.spotLights.find? (fun l => l.id == id2)).isSome = true
    · by_cases hlen : 1 / 10000 < GltfSpec.normLen x2 y2 z2
      · rw [GltfSpec.setSpotLightDirection, if_pos hf, if_pos hlen] at hl
        simp only [List.mem_map] at hl
        obtain ⟨l0, hl0, heq⟩ := hl
        by_cases hid : l0.id = id2
        · rw [if_pos hid] at heq
          rw [← heq]
          exact GltfSpec.normLen_div_self (lt_of_le_of_lt (by norm_num) hlen)
        · rw [if_neg hid] at heq
          rw [← heq]
          exact hall l0 hl0
      · rw [GltfSpec.setSpotLightDirection, if_pos hf, if_neg hlen] at hl
        exact hall l hl
    · rw [GltfSpec.setSpotLightDirection, if_neg hf] at hl
      exact hall l hl

/-- Witness for C8 at the zero input direction on an empty registry. -/
theorem c8_near_zero_directions_defaulted_witness :
    GltfSpec.normLen 0 0 0 ≤ 1 / 10000 ∧
    ((GltfSpec.newDirectionalLight 7 0 0 0).direction = ⟨0, 1, 0⟩ ∧
     GltfSpec.setLightDirection ⟨[], [], 0, 0⟩ 0 0 0 0 = ⟨[], [], 0, 0⟩) := by
  have h : GltfSpec.normLen 0 0 0 ≤ 1 / 10000 := by
    rw [GltfSpec.normLen]
    norm_num [Real.sqrt_zero]
  refine ⟨h, ?_, ?_⟩
  · exact (c8_near_zero_directions_defaulted ⟨[], [], 0, 0⟩ 0 0 0 0 h).1 7
  · exact (c8_near_zero_directions_defaulted ⟨[], [], 0, 0⟩ 0 0 0 0 h).2.2.1

namespace GltfSpec

noncomputable section

/-- C1 failing input: an enabled spot light at (0,0,−1) shining along +z,
inner angle 0, outer angle π/2, falloff 1, unlimited range, specular on. -/
def c1spot : SpotL :=
  ⟨true, ⟨1, 1, 1⟩, 1, ⟨0, 0, -1⟩, ⟨0, 0, 1⟩, 0, Real.pi / 2, 1, 0, true⟩

/-- C1 failing input: specular debug visualisation enabled. -/
def c1specCfg : SpecularCfg := ⟨1, 1, true⟩

/-- C1 failing input: the worker-side light snapshot. -/
def c1cfg : WorkerLightCfg :=
  ⟨⟨0, 0, 0⟩, [], [c1spot], none, some c1specCfg, some ⟨0, 0, -5⟩, none⟩

end

end GltfSpec

/-- **C1 (code bug).** The worker routine and the main-thread routine are
textually identical except in the spot-light specular debug branch: the
worker executes `b += 1.0` while the main thread executes `b -= 1.0`
(against its own "show blue" comment).  At a vertex at the origin with
normal (0,0,−1), camera (0,0,−5), ambient black and the spot light of
`c1spot` with the debug flag on, the worker yields (1/2, 1/2, 3/2, 1)
whereas the main thread yields (1/2, 1/2, −1/2, 1), so the two per-vertex
RGBA outputs differ. -/
theorem c1_worker_main_lighting_diverge_in_debug :
    GltfSpec.calculateLightingVertex GltfSpec.c1cfg (some ⟨0, 0, 0⟩) ⟨0, 0, -1⟩ =
      ⟨1 / 2, 1 / 2, 3 / 2, 1⟩ ∧
    GltfSpec.calculateMeshLightingVertex ⟨0, 0, 0⟩ [] [GltfSpec.c1spot]
        ⟨false, ⟨0, 0, 0⟩, ⟨0, 0, 0⟩, 0⟩ GltfSpec.c1specCfg
        (some ⟨0, 0, 0⟩) ⟨0, 0, -1⟩ none (some ⟨0, 0, -5⟩) =
      ⟨1 / 2, 1 / 2, -1 / 2, 1⟩ ∧
    GltfSpec.calculateLightingVertex GltfSpec.c1cfg (some ⟨0, 0, 0⟩) ⟨0, 0, -1⟩ ≠
      GltfSpec.calculateMeshLightingVertex ⟨0, 0, 0⟩ [] [GltfSpec.c1spot]
        ⟨false, ⟨0, 0, 0⟩, ⟨0, 0, 0⟩, 0⟩ GltfSpec.c1specCfg
        (some ⟨0, 0, 0⟩) ⟨0, 0, -1⟩ none (some ⟨0, 0, -5⟩) := by
  have h25 : Real.sqrt 25 = 5 := by
    rw [show (25 : ℝ) = 5 ^ 2 by norm_num]
    exact Real.sqrt_sq (by norm_num)
  have h4 : Real.sqrt 4 = 2 := by
    rw [show (4 : ℝ) = 2 ^ 2 by norm_num]
    exact Real.sqrt_sq (by norm_num)
  have h1 : Real.sqrt 1 = 1 := Real.sqrt_one
  have hc0 : Real.cos 0 = 1 := Real.cos_zero
  have hcp : Real.cos (Real.pi / 2) = 0 := Real.cos_pi_div_two
  have hw : GltfSpec.calculateLightingVertex GltfSpec.c1cfg (some ⟨0, 0, 0⟩) ⟨0, 0, -1⟩ =
      ⟨1 / 2, 1 / 2, 3 / 2, 1⟩ := by
    rw [GltfSpec.calculateLightingVertex]
    norm_num [GltfSpec.c1cfg, GltfSpec.c1spot, GltfSpec.c1specCfg, GltfSpec.matParts,
      GltfSpec.hasMatrixOf, GltfSpec.normalToWorld, GltfSpec.worldPos, GltfSpec.viewDir,
      GltfSpec.hemiContrib, GltfSpec.sumV3, GltfSpec.V3.add, GltfSpec.V3.zero,
      GltfSpec.dirLightContrib, GltfSpec.workerSpotContrib, GltfSpec.spotToVert,
      GltfSpec.spotCosAngle, GltfSpec.spotAngularAtten, GltfSpec.clamp2,
      h25, h4, h1, hc0, hcp]
  have hm : GltfSpec.calculateMeshLightingVertex ⟨0, 0, 0⟩ [] [GltfSpec.c1spot]
      ⟨false, ⟨0, 0, 0⟩, ⟨0, 0, 0⟩, 0⟩ GltfSpec.c1specCfg
      (some ⟨0, 0, 0⟩) ⟨0, 0, -1⟩ none (some ⟨0, 0, -5⟩) =
      ⟨1 / 2, 1 / 2, -1 / 2, 1⟩ := by
    rw [GltfSpec.calculateMeshLightingVertex]
    norm_num [GltfSpec.c1spot, GltfSpec.c1specCfg, GltfSpec.matParts,
      GltfSpec.hasMatrixOf, GltfSpec.normalToWorld, GltfSpec.worldPos, GltfSpec.viewDir,
      GltfSpec.hemiContrib, GltfSpec.sumV3, GltfSpec.V3.add, GltfSpec.V3.zero,
      GltfSpec.dirLightContrib, GltfSpec.mainSpotContrib, GltfSpec.spotToVert,
      GltfSpec.spotCosAngle, GltfSpec.spotAngularAtten, GltfSpec.clamp2,
      h25, h4, h1, hc0, hcp]
  refine ⟨hw, hm, ?_⟩
  rw [hw, hm]
  intro hcontra
  have hb : (3 / 2 : ℝ) = -1 / 2 := congrArg GltfSpec.RGBA.b hcontra
  norm_num at hb
